import Mathlib

/-!
Verification of the novel-summarizer repository against its specification.

Each Python function named in the claims is shallowly embedded as an
executable Lean definition, translated statement by statement from the
source file cited next to it.  Python `str` values are modelled as `String`
or `List Char`, machine floats as `ℚ` (all arithmetic involved is exact
decimal/rational arithmetic), database tables as lists of typed rows, and
SQL `ORDER BY` as a stable merge sort by the ordered columns.
-/

namespace NovelSummarizer

/-! ### ingest/splitter.py -/

/-- Chunk record produced by `split_text` (ingest/splitter.py, `Chunk`). -/
structure Chunk where
  idx : Nat
  text : List Char
  start_pos : Nat
  end_pos : Nat
  token_count : Nat
deriving Repr, DecidableEq

/-- Token estimate used by the splitter (`_estimate_tokens`): the length of
the text. -/
def estimateTokens (text : List Char) : Nat := text.length

/-- Loop state of the `while start < length` loop in `split_text`:
the cursor `start`, the accumulated `chunks` (in emission order, as the
Python list), and the running chunk index `idx`. -/
structure SplitState where
  start : Nat
  chunks : List Chunk
  idx : Nat
deriving Repr, DecidableEq

/-- Python slice `text[start:end]` for `0 ≤ start ≤ end`. -/
def pySlice (text : List Char) (s e : Nat) : List Char :=
  (text.drop s).take (e - s)

/-- One-iteration-at-a-time embedding of the `while start < length` loop of
`split_text` (ingest/splitter.py lines 35-58).  The loop is not structurally
recursive on any argument (the cursor can fail to advance), so it is
embedded with explicit fuel: `none` means the fuel ran out before the loop
finished, and the Python loop runs at least that many iterations. -/
def splitLoop (text : List Char) (chunk_size_tokens chunk_overlap_tokens min_chunk_tokens : Nat) :
    Nat → SplitState → Option (List Chunk)
  | 0, _ => none
  | fuel + 1, s =>
    if s.start < text.length then
      let e := min (s.start + chunk_size_tokens) text.length
      let segment := pySlice text s.start e
      let token_count := estimateTokens segment
      if h : token_count < min_chunk_tokens ∧ s.chunks ≠ [] then
        let prev := s.chunks.getLast h.2
        let merged_text := prev.text ++ segment
        some (s.chunks.dropLast ++
          [⟨prev.idx, merged_text, prev.start_pos, e, estimateTokens merged_text⟩])
      else
        let chunks := s.chunks ++ [⟨s.idx, segment, s.start, e, token_count⟩]
        if e = text.length then
          some chunks
        else
          let start := e - chunk_overlap_tokens
          let start := if start = e then e + 1 else start
          splitLoop text chunk_size_tokens chunk_overlap_tokens min_chunk_tokens fuel
            ⟨start, chunks, s.idx + 1⟩
    else
      some s.chunks

/-- Embedding of `split_text` (ingest/splitter.py lines 19-60).  The `fuel`
argument bounds the number of loop iterations; `max(0, end - overlap)` is
the truncated natural subtraction `e - overlap`. -/
def split_text (text : List Char) (chunk_size_tokens chunk_overlap_tokens min_chunk_tokens : Nat)
    (fuel : Nat) : Option (List Chunk) :=
  if text = [] then some []
  else if text.length ≤ chunk_size_tokens then
    some [⟨1, text, 0, text.length, estimateTokens text⟩]
  else
    splitLoop text chunk_size_tokens chunk_overlap_tokens min_chunk_tokens fuel ⟨0, [], 1⟩

/-! ### ingest/parser.py -/

/-- Result record of `load_text_auto` (ingest/parser.py, `TextLoadResult`). -/
structure TextLoadResult where
  text : String
  encoding : String
  autodetected : Bool
  confidence : ℚ
  used_replace_fallback : Bool
deriving Repr, DecidableEq

/-- Candidate encodings tried by auto detection
(`_AUTO_CANDIDATE_ENCODINGS`). -/
def AUTO_CANDIDATE_ENCODINGS : List String :=
  ["utf-8-sig", "utf-8", "gb18030", "big5", "utf-16", "utf-16-le", "utf-16-be"]

/-- ASCII whitespace test backing Python `str.strip()` as used here
(the inputs involved only carry ASCII whitespace). -/
def isPyWhitespace (c : Char) : Bool :=
  c = ' ' || c = '\t' || c = '\n' || c = '\r' || c = '\x0b' || c = '\x0c'

/-- Python `str.strip()` on both ends. -/
def pyStrip (s : String) : String :=
  String.mk (((s.toList.dropWhile isPyWhitespace).reverse.dropWhile isPyWhitespace).reverse)

/-- Python `str.lower()` (character-wise). -/
def pyLower (s : String) : String :=
  String.mk (s.toList.map Char.toLower)

/-- Embedding of `_is_cjk` (parser.py lines 44-53). -/
def is_cjk (v : Nat) : Bool :=
  (0x4E00 ≤ v && v ≤ 0x9FFF) || (0x3400 ≤ v && v ≤ 0x4DBF) || (0xF900 ≤ v && v ≤ 0xFAFF) ||
  (0x20000 ≤ v && v ≤ 0x2A6DF) || (0x2A700 ≤ v && v ≤ 0x2B73F) ||
  (0x2B740 ≤ v && v ≤ 0x2B81F) || (0x2B820 ≤ v && v ≤ 0x2CEAF)

/-- Embedding of `_is_cjk_punctuation` (parser.py lines 56-57). -/
def is_cjk_punctuation (v : Nat) : Bool :=
  (0x3000 ≤ v && v ≤ 0x303F) || (0xFF00 ≤ v && v ≤ 0xFFEF)

/-- Modelled from Python `str.isprintable` restricted to single characters:
false exactly on the C0/C1 control blocks, DEL, and the Unicode line and
paragraph separators (the cases the scorer can meet). -/
def pyIsPrintable (c : Char) : Bool :=
  let v := c.toNat
  !(v < 0x20 || v = 0x7F || (0x80 ≤ v && v ≤ 0x9F) || v = 0x2028 || v = 0x2029)

/-- Embedding of `_is_expected_text_char` (parser.py lines 60-68);
`ch.isascii() and ch.isprintable()` is the ASCII range 0x20-0x7E. -/
def is_expected_text_char (c : Char) : Bool :=
  if c = '\n' || c = '\r' || c = '\t' then true
  else if 0x20 ≤ c.toNat && c.toNat ≤ 0x7E then true
  else if is_cjk c.toNat || is_cjk_punctuation c.toNat then true
  else false

/-- Character class `[0-9一二三四五六七八九十百千]` of the default chapter
pattern. -/
def isChapterNumChar (c : Char) : Bool :=
  c.isDigit || c = '一' || c = '二' || c = '三' || c = '四' || c = '五' || c = '六' ||
    c = '七' || c = '八' || c = '九' || c = '十' || c = '百' || c = '千'

/-- Test whether a line matches the default chapter pattern
`^第[0-9一二三四五六七八九十百千]+章.*$`. -/
def lineMatchesDefaultChapterPattern (line : List Char) : Bool :=
  match line with
  | [] => false
  | c :: rest =>
    c = '第' && (rest.takeWhile isChapterNumChar).length ≥ 1 &&
      (match rest.dropWhile isChapterNumChar with
       | d :: _ => d = '章'
       | [] => false)

/-- Count of `re.findall` matches of the default chapter pattern with
`re.MULTILINE`: one per matching line. -/
def defaultChapterHits (s : String) : Nat :=
  ((s.splitOn "\n").filter (fun line => lineMatchesDefaultChapterPattern line.toList)).length

/-- Embedding of `_score_decoded_text` (parser.py lines 71-101).  Float
arithmetic is modelled in `ℚ`; `chapterHits` is the `re.findall` count of
the effective chapter pattern on the sample (for a custom `chapter_regex`
it abstracts the external regex engine, for the default pattern it is
`defaultChapterHits`). -/
def score_decoded_text (text : String) (chapterHits : String → Nat) : ℚ :=
  if text = "" then -(1000000000 : ℚ)
  else
    let sample := text.toList.take 120000
    let total : ℚ := sample.length
    let expected_count : ℚ := (sample.filter is_expected_text_char).length
    let cjk_count : ℚ := (sample.filter (fun c => is_expected_text_char c && is_cjk c.toNat)).length
    let control_count : ℚ :=
      (sample.filter (fun c => !is_expected_text_char c && !pyIsPrintable c)).length
    let chapter_hits : ℚ := min (chapterHits (String.mk sample)) 300
    (expected_count / total) * 100 + (cjk_count / total) * 20 + chapter_hits * (1 / 2) -
      (control_count / total) * 200

/-- Scored candidate list built by the auto-detection loop of
`load_text_auto` (parser.py lines 117-124): for each candidate encoding
that decodes strictly, the triple `(score, candidate, decoded)`.
`strictDecode` models `raw_bytes.decode(candidate, errors="strict")`
(`none` = `UnicodeDecodeError`). -/
def autoCandidateScores (strictDecode : String → Option String) (chapterHits : String → Nat) :
    List (ℚ × String × String) :=
  AUTO_CANDIDATE_ENCODINGS.filterMap fun candidate =>
    (strictDecode candidate).map fun decoded =>
      (score_decoded_text decoded chapterHits, candidate, decoded)

/-- Embedding of `load_text_auto` (parser.py lines 104-147).  External
byte-level inputs are passed as values: `strictDecode` models strict
decoding of the file bytes per candidate, `utf8ReplaceText` models
`raw_bytes.decode("utf-8", errors="replace")`, `loadTextResult` models
`load_text(path, encoding)` for the non-auto branch, and `chapterHits`
models the regex hit count. Python `list.sort(key=score, reverse=True)` is
the stable descending merge sort on the score component. -/
def load_text_auto (encoding : String) (strictDecode : String → Option String)
    (utf8ReplaceText : String) (loadTextResult : String) (chapterHits : String → Nat) :
    TextLoadResult :=
  let normalized_encoding := pyLower (pyStrip (if encoding = "" then "auto" else encoding))
  if normalized_encoding ≠ "auto" then
    ⟨loadTextResult, encoding, false, 1, loadTextResult.toList.contains (Char.ofNat 0xFFFD)⟩
  else
    let candidates := autoCandidateScores strictDecode chapterHits
    if candidates = [] then
      ⟨utf8ReplaceText, "utf-8", true, 0, true⟩
    else
      match candidates.mergeSort (fun a b => decide (b.1 ≤ a.1)) with
      | [] => ⟨utf8ReplaceText, "utf-8", true, 0, true⟩
      | best :: rest =>
        let second_score := match rest with | [] => best.1 | s :: _ => s.1
        let confidence :=
          if candidates.length = 1 then (1 : ℚ)
          else max 0 (min 1 ((best.1 - second_score) / 30))
        ⟨best.2.2, best.2.1, true, confidence, false⟩

/-! ### storyteller/nodes/evidence_verify.py -/

/-- Character class `[一-鿿]` of `_TOKEN_PATTERN`. -/
def isCJKTokenChar (c : Char) : Bool :=
  0x4E00 ≤ c.toNat && c.toNat ≤ 0x9FFF

/-- Character class `[A-Za-z0-9_]` of `_TOKEN_PATTERN`. -/
def isWordTokenChar (c : Char) : Bool :=
  ('A' ≤ c && c ≤ 'Z') || ('a' ≤ c && c ≤ 'z') || ('0' ≤ c && c ≤ '9') || c = '_'

/-- Left-to-right scan implementing
`re.findall(r"[一-鿿]{2,8}|[A-Za-z0-9_]{2,20}", text)`: at each
position the first alternative (a greedy CJK run of 2-8) is tried, then the
second (a greedy word-character run of 2-20), else the scan advances one
character.  Each step consumes at least one character, so fuel equal to the
input length never runs out; the fuel only makes the recursion structural. -/
def findallTokensAux : Nat → List Char → List String
  | 0, _ => []
  | _ + 1, [] => []
  | fuel + 1, c :: rest =>
    if isCJKTokenChar c && (match rest with | r :: _ => isCJKTokenChar r | [] => false) then
      let token := (c :: rest.takeWhile isCJKTokenChar).take 8
      String.mk token :: findallTokensAux fuel (rest.drop (token.length - 1))
    else if isWordTokenChar c && (match rest with | r :: _ => isWordTokenChar r | [] => false) then
      let token := (c :: rest.takeWhile isWordTokenChar).take 20
      String.mk token :: findallTokensAux fuel (rest.drop (token.length - 1))
    else
      findallTokensAux fuel rest

/-- Token list of `_TOKEN_PATTERN.findall(text)`. -/
def findallTokens (cs : List Char) : List String :=
  findallTokensAux cs.length cs

/-- Embedding of `_tokens` (evidence_verify.py lines 17-18): the set of
pattern matches. -/
def evTokens (s : String) : Finset String :=
  (findallTokens s.toList).toFinset

/-- Python substring test `needle in hay`. -/
def strContains (hay needle : String) : Bool :=
  hay.toList.tails.any fun t => needle.toList.isPrefixOf t

/-- Source snippet record used by the node (`_build_sources` entries). -/
structure Source where
  source_type : String
  text : String
deriving Repr, DecidableEq

/-- Embedding of `_source_snippet` (evidence_verify.py lines 51-52) at the
default length 120. -/
def source_snippet (text : String) : String :=
  pyStrip (String.mk (text.toList.take 120))

/-- Loop of `_best_support_score` (evidence_verify.py lines 68-93) over the
sources, carrying the best `(score, source_type, snippet)` so far; an exact
key-phrase or whole-claim substring hit returns `1.0` immediately. -/
def best_support_loop (claim_text : String) (claim_tokens : Finset String)
    (key_phrases : List String) :
    List Source → (ℚ × String × String) → (ℚ × String × String)
  | [], best => best
  | source :: rest, best =>
    if source.text = "" then
      best_support_loop claim_text claim_tokens key_phrases rest best
    else if key_phrases.any (fun p => pyStrip p ≠ "" && strContains source.text (pyStrip p)) then
      (1, source.source_type, source_snippet source.text)
    else if claim_text ≠ "" && strContains source.text claim_text then
      (1, source.source_type, source_snippet source.text)
    else
      let source_tokens := evTokens source.text
      let score : ℚ :=
        if claim_tokens = ∅ then 0
        else ((claim_tokens ∩ source_tokens).card : ℚ) / max claim_tokens.card 1
      if best.1 < score then
        best_support_loop claim_text claim_tokens key_phrases rest
          (score, source.source_type, source_snippet source.text)
      else
        best_support_loop claim_text claim_tokens key_phrases rest best

/-- Embedding of `_best_support_score` (evidence_verify.py lines 55-93). -/
def best_support_score (claim_text : String) (sources : List Source)
    (key_phrases : List String) : ℚ × String × String :=
  if claim_text = "" then (0, "", "")
  else best_support_loop claim_text (evTokens claim_text) key_phrases sources (0, "", "")

/-- Per-source overlap score computed by the non-substring branch of the
loop: the intersection size over the claim token count. -/
def overlap_score (claim_tokens : Finset String) (s : Source) : ℚ :=
  if s.text = "" then 0
  else if claim_tokens = ∅ then 0
  else ((claim_tokens ∩ evTokens s.text).card : ℚ) / max claim_tokens.card 1

/-- Substring-hit test of the loop for one source: nonempty source text
containing either a nonempty stripped key phrase or the whole claim text. -/
def substring_hit (claim_text : String) (key_phrases : List String) (s : Source) : Bool :=
  s.text ≠ "" &&
    (key_phrases.any (fun p => pyStrip p ≠ "" && strContains s.text (pyStrip p)) ||
      (claim_text ≠ "" && strContains s.text claim_text))

/-- Modelled from the spec: the evidence support score described in
spec.md ("exact substring of any key phrase → 1.0; exact substring of the
whole claim → 1.0; else Jaccard over tokens (CJK 2-8 or alnum 2-20)"),
with Jaccard similarity `|A ∩ B| / |A ∪ B|` of the token sets. -/
def jaccard_support_score_spec (claim_text : String) (sources : List Source)
    (key_phrases : List String) : ℚ :=
  if sources.any (fun s =>
      key_phrases.any fun p => pyStrip p ≠ "" && strContains s.text (pyStrip p)) then 1
  else if sources.any (fun s => strContains s.text claim_text) then 1
  else
    (sources.map fun s =>
      let a := evTokens claim_text
      let b := evTokens s.text
      if (a ∪ b).card = 0 then (0 : ℚ) else ((a ∩ b).card : ℚ) / (a ∪ b).card).foldl max 0

/-- Key-event record as consumed by the evidence node (fields read by
`_claim_text_from_event`); `whereLoc` renders the Python key `"where"`. -/
structure KeyEvent where
  who : String
  what : String
  whereLoc : String
  outcome : String
  impact : String
deriving Repr, DecidableEq

/-- Character-update record as consumed by the evidence node. -/
structure EvUpdate where
  name : String
  change_type : String
  before : String
  after : String
  evidence : String
deriving Repr, DecidableEq

/-- New-item record as consumed by the evidence node. -/
structure NewItem where
  name : String
  owner : String
  description : String
deriving Repr, DecidableEq

/-- Awakened-memory record (fields read by `_build_sources`). -/
structure Memory where
  source_type : String
  text : String
deriving Repr, DecidableEq

/-- Embedding of `_claim_text_from_event` (evidence_verify.py lines 21-29). -/
def claim_text_from_event (e : KeyEvent) : String :=
  String.intercalate " "
    (([pyStrip e.who, pyStrip e.what, pyStrip e.whereLoc, pyStrip e.outcome,
       pyStrip e.impact]).filter (· ≠ ""))

/-- Embedding of `_claim_text_from_update` (evidence_verify.py lines 32-39). -/
def claim_text_from_update (u : EvUpdate) : String :=
  String.intercalate " "
    (([pyStrip u.name, pyStrip u.change_type, pyStrip u.after, pyStrip u.evidence]).filter
      (· ≠ ""))

/-- Embedding of `_claim_text_from_item` (evidence_verify.py lines 42-48). -/
def claim_text_from_item (i : NewItem) : String :=
  String.intercalate " "
    (([pyStrip i.name, pyStrip i.owner, pyStrip i.description]).filter (· ≠ ""))

/-- Embedding of `_build_sources` (evidence_verify.py lines 96-108). -/
def build_sources (chapter_text : String) (awakened_memories : List Memory)
    (max_snippets : Nat) : List Source :=
  (if pyStrip chapter_text ≠ "" then [⟨"chapter", pyStrip chapter_text⟩] else []) ++
    (awakened_memories.take max_snippets).filterMap fun m =>
      if pyStrip m.text = "" then none
      else some ⟨if pyStrip m.source_type = "" then "memory" else pyStrip m.source_type,
        pyStrip m.text⟩

/-- Modelled from Python `round(x, 4)` on floats: round to four decimal
places, ties to even, in exact rational arithmetic. -/
def pyRound4 (q : ℚ) : ℚ :=
  let x := q * 10000
  let n := ⌊x⌋
  let f := x - n
  let r : ℤ := if f < 1 / 2 then n else if 1 / 2 < f then n + 1 else if Even n then n else n + 1
  (r : ℚ) / 10000

/-- Claim record accepted by the evidence node, annotated with
`evidence_source_type`, `evidence_quote` and `evidence_score`. -/
structure Enriched (α : Type) where
  item : α
  evidence_source_type : String
  evidence_quote : String
  evidence_score : ℚ
deriving Repr

/-- Outcome of one acceptance loop of `run`: the accepted enriched claims,
the rejection warnings, and the total/supported counters contributed. -/
structure ProcResult (α : Type) where
  supported : List (Enriched α)
  warnings : List String
  total : Nat
  supported_count : Nat
deriving Repr

/-- One acceptance loop of `run` (evidence_verify.py lines 125-177): each
of the three loops instantiates `claimText`, `keyPhrases` and `warnMsg`
with its per-kind fields, scores the claim against the sources, rejects it
below `min_score` with a warning, and otherwise annotates it. -/
def processClaims {α : Type} (min_score : ℚ) (sources : List Source)
    (claimText : α → String) (keyPhrases : α → List String) (warnMsg : α → String) :
    List α → ProcResult α
  | [] => ⟨[], [], 0, 0⟩
  | x :: rest =>
    let r := processClaims min_score sources claimText keyPhrases warnMsg rest
    let bss := best_support_score (claimText x) sources (keyPhrases x)
    if bss.1 < min_score then
      ⟨r.supported, warnMsg x :: r.warnings, r.total + 1, r.supported_count⟩
    else
      ⟨⟨x, bss.2.1, bss.2.2, pyRound4 bss.1⟩ :: r.supported, r.warnings, r.total + 1,
        r.supported_count + 1⟩

/-- Input state slice read by `evidence_verify.run`. -/
structure EvidenceState where
  chapter_text : String
  awakened_memories : List Memory
  consistency_warnings : List String
  consistency_actions : List String
  key_events : List KeyEvent
  character_updates : List EvUpdate
  new_items : List NewItem
deriving Repr

/-- Evidence report emitted by `run`. -/
structure EvidenceReport where
  total_claims : Nat
  supported_claims : Nat
  unsupported_claims : Nat
deriving Repr, DecidableEq

/-- Output of `evidence_verify.run`. -/
structure EvidenceOutput where
  key_events : List (Enriched KeyEvent)
  character_updates : List (Enriched EvUpdate)
  new_items : List (Enriched NewItem)
  consistency_warnings : List String
  consistency_actions : List String
  evidence_report : EvidenceReport
deriving Repr

/-- Embedding of `evidence_verify.run` (evidence_verify.py lines 111-194).
`min_score` is `float(config.storyteller.evidence_min_support_score)` and
`max_snippets` is `int(config.storyteller.evidence_max_snippets)`;
`max(0, total - supported)` is the truncated natural subtraction. -/
def evidence_verify_run (min_score : ℚ) (max_snippets : Nat) (state : EvidenceState) :
    EvidenceOutput :=
  let sources := build_sources state.chapter_text state.awakened_memories max_snippets
  let re := processClaims min_score sources claim_text_from_event
    (fun e => [pyStrip e.what])
    (fun e => "Evidence rejected key_event: " ++ e.what) state.key_events
  let ru := processClaims min_score sources claim_text_from_update
    (fun u => [pyStrip u.evidence, pyStrip u.after])
    (fun u => "Evidence rejected character_update: " ++ u.name) state.character_updates
  let ri := processClaims min_score sources claim_text_from_item
    (fun i => [pyStrip i.name, pyStrip i.description, pyStrip i.owner])
    (fun i => "Evidence rejected new_item: " ++ i.name) state.new_items
  let total_claims := re.total + ru.total + ri.total
  let supported_claims := re.supported_count + ru.supported_count + ri.supported_count
  let unsupported_claims := total_claims - supported_claims
  { key_events := re.supported
    character_updates := ru.supported
    new_items := ri.supported
    consistency_warnings := state.consistency_warnings ++ re.warnings ++ ru.warnings ++ ri.warnings
    consistency_actions := state.consistency_actions ++
      (if unsupported_claims > 0 then
        ["Evidence filtered unsupported claims: " ++ toString unsupported_claims]
      else [])
    evidence_report := ⟨total_claims, supported_claims, unsupported_claims⟩ }

/-! ### storyteller/nodes/consistency_check.py -/

/-- Embedding of `_normalize_name_key` (consistency_check.py lines 15-16):
strip, lowercase, and remove ASCII spaces. -/
def normalize_name_key (name : String) : String :=
  String.mk ((pyLower (pyStrip name)).toList.filter (· ≠ ' '))

/-- Dynamic `aliases_json` value as stored on a character state row: a JSON
string, an already-parsed list, or anything else. -/
inductive AliasesRaw where
  | str (s : String)
  | list (l : List String)
  | other
deriving Repr, DecidableEq

/-- Python `s.strip("[]")`: remove leading and trailing brackets. -/
def stripBrackets (s : String) : String :=
  String.mk (((s.toList.dropWhile fun c => c = '[' || c = ']').reverse.dropWhile
    fun c => c = '[' || c = ']').reverse)

/-- Alias-list extraction of `_build_character_alias_index`
(consistency_check.py lines 27-33). -/
def parseAliases (raw : AliasesRaw) : List String :=
  match raw with
  | .str s =>
    (((String.mk ((stripBrackets s).toList.filter (· ≠ '"'))).splitOn ",").map pyStrip).filter
      (· ≠ "")
  | .list l => (l.map pyStrip).filter (· ≠ "")
  | .other => []

/-- Character state row as read by the consistency node. -/
structure CharacterStateIn where
  canonical_name : String
  aliases_json : AliasesRaw
deriving Repr, DecidableEq

/-- Python dict assignment `d[k] = v`: overwrite in place, else append. -/
def dictInsert (d : List (String × String)) (k v : String) : List (String × String) :=
  if d.any fun p => p.1 = k then d.map fun p => if p.1 = k then (k, v) else p
  else d ++ [(k, v)]

/-- Python dict lookup `d.get(k)`. -/
def dictGet (d : List (String × String)) (k : String) : Option String :=
  (d.find? fun p => p.1 = k).map (·.2)

/-- Embedding of `_build_character_alias_index` (consistency_check.py
lines 19-38). -/
def build_character_alias_index (character_states : List CharacterStateIn) :
    List (String × String) :=
  character_states.foldl
    (fun alias_index character =>
      let canonical := pyStrip character.canonical_name
      if canonical = "" then alias_index
      else
        (parseAliases character.aliases_json).foldl
          (fun idx aliasName => dictInsert idx (normalize_name_key aliasName) canonical)
          (dictInsert alias_index (normalize_name_key canonical) canonical))
    []

/-- Recent plot-event row as read by the consistency node. -/
structure RecentEvent where
  event_summary : String
deriving Repr, DecidableEq

/-- Character update emitted by the consistency node (normalized fields plus
the raw input name). -/
structure CharacterUpdateOut where
  name : String
  name_raw : String
  change_type : String
  before : String
  after : String
  evidence : String
deriving Repr, DecidableEq

/-- Key-event sanitation loop of `consistency_check.run`
(consistency_check.py lines 59-78), carrying the `seen_event_texts` set;
returns the sanitized events and the warnings in order. -/
def sanitizeKeyEvents (recent_event_set : List String) :
    List KeyEvent → List String → List KeyEvent × List String
  | [], _ => ([], [])
  | e :: rest, seen =>
    let what := pyStrip e.what
    if what = "" then
      let r := sanitizeKeyEvents recent_event_set rest seen
      (r.1, "Dropped empty key_event" :: r.2)
    else if what ∈ seen ∨ what ∈ recent_event_set then
      let r := sanitizeKeyEvents recent_event_set rest seen
      (r.1, ("Dropped duplicated key_event: " ++ what) :: r.2)
    else
      let r := sanitizeKeyEvents recent_event_set rest (what :: seen)
      (⟨pyStrip e.who, what, pyStrip e.whereLoc, pyStrip e.outcome, pyStrip e.impact⟩ :: r.1,
        r.2)

/-- Character-update sanitation loop of `consistency_check.run`
(consistency_check.py lines 85-111); returns the sanitized updates, the
warnings, and the normalization actions, each in order. -/
def sanitizeUpdates (alias_index : List (String × String)) :
    List EvUpdate → List CharacterUpdateOut × List String × List String
  | [] => ([], [], [])
  | u :: rest =>
    let r := sanitizeUpdates alias_index rest
    let name_raw := pyStrip u.name
    if name_raw = "" then
      (r.1, "Dropped character_update without name" :: r.2.1, r.2.2)
    else
      let canonical := (dictGet alias_index (normalize_name_key name_raw)).getD name_raw
      let actions_add :=
        if canonical ≠ name_raw then
          ["Normalized character alias '" ++ name_raw ++ "' -> '" ++ canonical ++ "'"]
        else []
      let change_type := if pyStrip u.change_type = "" then "status" else pyStrip u.change_type
      let before := pyStrip u.before
      let after := pyStrip u.after
      if before ≠ "" ∧ after ≠ "" ∧ before = after then
        (r.1,
          ("Dropped no-op character_update for '" ++ canonical ++ "' (" ++ change_type ++ ")") ::
            r.2.1,
          actions_add ++ r.2.2)
      else
        (⟨canonical, name_raw, change_type, before, after, pyStrip u.evidence⟩ :: r.1, r.2.1,
          actions_add ++ r.2.2)

/-- Input state slice read by `consistency_check.run`. -/
structure ConsistencyState where
  recent_events : List RecentEvent
  key_events : List KeyEvent
  character_states : List CharacterStateIn
  character_updates : List EvUpdate
deriving Repr

/-- Output of `consistency_check.run`. -/
structure ConsistencyOutput where
  key_events : List KeyEvent
  character_updates : List CharacterUpdateOut
  consistency_warnings : List String
  consistency_actions : List String
deriving Repr

/-- Embedding of `consistency_check.run` (consistency_check.py lines
41-128): drop empty and duplicated key events, truncate to 20, normalize
update names through the alias index, and drop no-op updates. -/
def consistency_check_run (state : ConsistencyState) : ConsistencyOutput :=
  let recent_event_set :=
    (state.recent_events.map fun i => pyStrip i.event_summary).filter (· ≠ "")
  let se := sanitizeKeyEvents recent_event_set state.key_events []
  let truncate := se.1.length > 20
  let sanitized_events := if truncate then se.1.take 20 else se.1
  let alias_index := build_character_alias_index state.character_states
  let su := sanitizeUpdates alias_index state.character_updates
  { key_events := sanitized_events
    character_updates := su.1
    consistency_warnings :=
      se.2 ++ (if truncate then ["Too many key_events; truncated to 20"] else []) ++ su.2.1
    consistency_actions := su.2.2 }

/-! ### embeddings/service.py -/

/-- Vector-store document metadata after `_docs_to_records`: `none` models
a missing key or a value on which `int()` raises (the `try/except` skip in
`_retrieve_vector_records`). -/
structure RawDoc where
  source_id : Option Int
  chapter_idx : Option Int
  chapter_title : String
  text : String
deriving Repr, DecidableEq

/-- FTS search hit row (storage/types.py, `SearchHitRow`). -/
structure SearchHitRow where
  source_type : String
  source_id : Int
  chapter_idx : Int
  chapter_title : String
  text : String
  score : Option ℚ
deriving Repr, DecidableEq

/-- Candidate record built by `_retrieve_vector_records` and the FTS branch
of `retrieve_hybrid_memories`. -/
structure MemRecord where
  source_type : String
  source_id : Int
  chapter_idx : Int
  chapter_title : String
  text : String
  vector_rank_score : ℚ
  keyword_rank_score : ℚ
deriving Repr, DecidableEq

/-- Final hybrid-retrieval entry (the aggregated record with its `score`
and `proximity_score` fields filled in). -/
structure MemoryEntry where
  source_type : String
  source_id : Int
  chapter_idx : Int
  chapter_title : String
  text : String
  vector_rank_score : ℚ
  keyword_rank_score : ℚ
  score : ℚ
  proximity_score : ℚ
deriving Repr, DecidableEq

/-- Embedding of `_norm_rank` (embeddings/service.py lines 292-295). -/
def norm_rank (rank size : Nat) : ℚ :=
  if size ≤ 0 then 0 else max 0 (1 - (((rank : ℚ) - 1) / ((max size 1 : Nat) : ℚ)))

/-- Embedding of `_proximity_score` (embeddings/service.py lines 298-304). -/
def proximity_score (current_chapter_idx : Option Int) (source_chapter_idx : Int) : ℚ :=
  match current_chapter_idx with
  | none => 0
  | some c =>
    if source_chapter_idx ≥ c then 0
    else 1 / (1 + ((c - source_chapter_idx : Int) : ℚ))

/-- Record-building loop of `_retrieve_vector_records` (embeddings/
service.py lines 307-350): rank-enumerate the raw documents, skip entries
whose ids fail integer conversion, and attach the normalized vector rank
score.  The vector search itself is external; its result list is the
`raw_results` input. -/
def recordsFromDocs (top_k : Int) (source_type : String) (raw_results : List RawDoc) :
    List MemRecord :=
  if top_k ≤ 0 then []
  else
    raw_results.enum.filterMap fun p =>
      match p.2.source_id, p.2.chapter_idx with
      | some sid, some cidx =>
        some ⟨source_type, sid, cidx, p.2.chapter_title, p.2.text,
          norm_rank (p.1 + 1) raw_results.length, 0⟩
      | _, _ => none

/-- Keyword-hit records built from the merged FTS rows
(embeddings/service.py lines 440-452). -/
def keywordHitsFromRows (rows : List SearchHitRow) : List MemRecord :=
  rows.enum.map fun p =>
    ⟨p.2.source_type, p.2.source_id, p.2.chapter_idx, p.2.chapter_title, p.2.text, 0,
      norm_rank (p.1 + 1) rows.length⟩

/-- Character class `[一-鿿A-Za-z0-9_]` of `_extract_keyword_terms`. -/
def isKeywordChar (c : Char) : Bool :=
  (0x4E00 ≤ c.toNat && c.toNat ≤ 0x9FFF) || isWordTokenChar c

/-- Scan implementing `re.findall(r"[一-鿿A-Za-z0-9_]{2,20}", text)`,
with the same fuel pattern as `findallTokensAux`. -/
def findallKeywordRunsAux : Nat → List Char → List String
  | 0, _ => []
  | _ + 1, [] => []
  | fuel + 1, c :: rest =>
    if isKeywordChar c && (match rest with | r :: _ => isKeywordChar r | [] => false) then
      let token := (c :: rest.takeWhile isKeywordChar).take 20
      String.mk token :: findallKeywordRunsAux fuel (rest.drop (token.length - 1))
    else
      findallKeywordRunsAux fuel rest

/-- Keyword runs found in the query text. -/
def findallKeywordRuns (cs : List Char) : List String :=
  findallKeywordRunsAux cs.length cs

/-- Deduplication loop of `_extract_keyword_terms` (embeddings/service.py
lines 272-280): strip, skip empties and duplicates, stop once `max_terms`
terms are collected. -/
def keywordDedup (max_terms : Nat) : List String → List String → List String
  | [], _ => []
  | v :: rest, seen =>
    let w := pyStrip v
    if w = "" ∨ w ∈ seen then keywordDedup max_terms rest seen
    else if seen.length + 1 ≥ max_terms then [w]
    else w :: keywordDedup max_terms rest (w :: seen)

/-- Embedding of `_extract_keyword_terms` (embeddings/service.py lines
267-280); the default `max_terms` at the call site is 8. -/
def extract_keyword_terms (query_text : String) (terms : Option (List String))
    (max_terms : Nat) : List String :=
  keywordDedup max_terms (terms.getD [] ++ findallKeywordRuns query_text.toList) []

/-- Embedding of `_build_fts_query` (embeddings/service.py lines 283-289). -/
def build_fts_query (terms : List String) : String :=
  String.intercalate " OR " (terms.filterMap fun term =>
    let escaped := String.mk (term.toList.filter (· ≠ '"'))
    if escaped = "" then none else some ("\"" ++ escaped ++ "\""))

/-- Embedding of the `merge` closure of `retrieve_hybrid_memories`
(embeddings/service.py lines 458-484): drop any candidate with
`chapter_idx ≥ current_chapter_idx`, `setdefault` an aggregate entry keyed
by `(source_type, source_id)` with the text truncated to 800 characters,
then raise the entry's two rank scores to the candidate's.  The aggregated
dict is a key-ordered association list (Python dicts preserve insertion
order). -/
def mergeCandidate (current_chapter_idx : Option Int)
    (aggregated : List ((String × Int) × MemRecord)) (item : MemRecord) :
    List ((String × Int) × MemRecord) :=
  if (match current_chapter_idx with
      | some c => decide (item.chapter_idx ≥ c)
      | none => false) then
    aggregated
  else
    let key := (item.source_type, item.source_id)
    let aggregated :=
      if aggregated.any fun p => p.1 = key then aggregated
      else
        aggregated ++ [(key, ⟨item.source_type, item.source_id, item.chapter_idx,
          item.chapter_title, String.mk (item.text.toList.take 800), 0, 0⟩)]
    aggregated.map fun p =>
      if p.1 = key then
        (p.1,
          { p.2 with
            vector_rank_score := max p.2.vector_rank_score item.vector_rank_score
            keyword_rank_score := max p.2.keyword_rank_score item.keyword_rank_score })
      else p

/-- Embedding of `retrieve_hybrid_memories` (embeddings/service.py lines
376-502).  The two vector searches and the two FTS queries are external;
their result lists are inputs (a failed retrieval contributes the empty
list, matching the `try/except` fallbacks).  Scoring uses `alpha = 0.7`
and `beta = 0.2` at the call sites; Python's reverse stable sort by score
is the stable merge sort on `score` descending. -/
def retrieve_hybrid_memories (top_k : Int) (current_chapter_idx : Option Int)
    (alpha beta : ℚ) (chunk_docs narration_docs : List RawDoc)
    (chunk_hits narration_hits : List SearchHitRow)
    (query_text : String) (keyword_terms : Option (List String)) : List MemoryEntry :=
  if top_k ≤ 0 then []
  else
    let candidates := recordsFromDocs (max (top_k * 3) top_k) "chunk" chunk_docs ++
      recordsFromDocs (max (top_k * 2) top_k) "narration" narration_docs
    let terms := extract_keyword_terms query_text keyword_terms 8
    let fts_query := build_fts_query terms
    let keyword_hits :=
      if fts_query = "" then [] else keywordHitsFromRows (chunk_hits ++ narration_hits)
    let aggregated := (candidates ++ keyword_hits).foldl (mergeCandidate current_chapter_idx) []
    let results := aggregated.map fun p =>
      let proximity := proximity_score current_chapter_idx p.2.chapter_idx
      ({ source_type := p.2.source_type
         source_id := p.2.source_id
         chapter_idx := p.2.chapter_idx
         chapter_title := p.2.chapter_title
         text := p.2.text
         vector_rank_score := p.2.vector_rank_score
         keyword_rank_score := p.2.keyword_rank_score
         score := alpha * p.2.vector_rank_score + (1 - alpha) * p.2.keyword_rank_score +
           beta * proximity
         proximity_score := proximity } : MemoryEntry)
    (results.mergeSort fun a b => decide (b.score ≤ a.score)).take top_k.toNat

/-! ### storage/narrations/crud.py and export/markdown.py -/

/-- Narration table row (ORM model `Narration`): the columns selected into
`NarrationRow` plus the `created_at` timestamp column used by
`ORDER BY` (modelled as an integer timestamp). -/
structure NarrationRec where
  id : Int
  book_id : Int
  chapter_id : Int
  chapter_idx : Int
  narration_text : String
  key_events_json : Option String
  prompt_version : String
  model : String
  input_hash : String
  created_at : Int
deriving Repr, DecidableEq

/-- Selected-columns row (storage/types.py, `NarrationRow`). -/
structure NarrationRow where
  id : Int
  book_id : Int
  chapter_id : Int
  chapter_idx : Int
  narration_text : String
  key_events_json : Option String
  prompt_version : String
  model : String
  input_hash : String
deriving Repr, DecidableEq

/-- Embedding of `_to_row` (narrations/crud.py lines 12-23). -/
def narrationToRow (r : NarrationRec) : NarrationRow :=
  ⟨r.id, r.book_id, r.chapter_id, r.chapter_idx, r.narration_text, r.key_events_json,
    r.prompt_version, r.model, r.input_hash⟩

/-- Embedding of `get_latest_narration` (narrations/crud.py lines 55-73):
`WHERE chapter_id = ? ORDER BY created_at DESC LIMIT 1` with no secondary
sort key.  SQLite leaves the relative order of rows with equal
`created_at` unspecified; the embedding models the engine's choice as a
stable descending sort over table scan order, so ties resolve to the
earliest-scanned row — in particular not to the row with the greatest
`id`. -/
def get_latest_narration (tbl : List NarrationRec) (chapter_id : Int) : Option NarrationRow :=
  (((tbl.filter fun r => r.chapter_id = chapter_id).mergeSort
    fun a b => decide (b.created_at ≤ a.created_at)).head?).map narrationToRow

/-- Modelled from the spec: the narration spec.md calls "latest" for a
chapter — greatest `created_at`, ties broken by greatest `id`. -/
def spec_latest_narration (tbl : List NarrationRec) (chapter_id : Int) : Option NarrationRow :=
  (((tbl.filter fun r => r.chapter_id = chapter_id).mergeSort
    fun a b => decide (b.created_at < a.created_at ∨
      (b.created_at = a.created_at ∧ b.id ≤ a.id))).head?).map narrationToRow

/-- Embedding of `list_narrations_by_book` (narrations/crud.py lines
76-93): all narration rows of the book — every version — ordered by
`chapter_idx` only. -/
def list_narrations_by_book (tbl : List NarrationRec) (book_id : Int) : List NarrationRow :=
  ((tbl.filter fun r => r.book_id = book_id).mergeSort
    fun a b => decide (a.chapter_idx ≤ b.chapter_idx)).map narrationToRow

/-- Embedding of `_render_chapter_narration` (export/markdown.py lines
117-118). -/
def render_chapter_narration (chapter_idx : Int) (chapter_title narration : String) : String :=
  "# 第" ++ toString chapter_idx ++ "章 " ++ chapter_title ++ "\n\n" ++ narration ++ "\n"

/-- Chapter-content loop of `_export_storyteller_outputs`
(export/markdown.py lines 135-141): one rendered part per row of
`list_narrations_by_book`, with the chapter title looked up by
`chapter_id` and defaulting to `第{idx}章`. -/
def export_merged_parts (narrations : List NarrationRow)
    (chapter_title_map : List (Int × String)) : List String :=
  narrations.map fun row =>
    let chapter_title := ((chapter_title_map.find? fun p => p.1 = row.chapter_id).map
      (·.2)).getD ("第" ++ toString row.chapter_idx ++ "章")
    render_chapter_narration row.chapter_idx chapter_title row.narration_text

/-- Embedding of the `full_story.md` text (export/markdown.py line 143). -/
def export_full_story (merged_parts : List String) : String :=
  if merged_parts = [] then "# 全书说书稿\n\n暂无说书稿数据。\n"
  else String.intercalate "\n\n" merged_parts

/-! ### storage/world_state tables, storyteller/service.py `_snapshot_world_state`,
storage/repo.py `restore_world_state_checkpoint` -/

/-- Character state row (storage/types.py, `CharacterRow`; exactly the
columns selected by `list_character_states` and allowed by the restore's
`_normalize_rows`). -/
structure CharacterRow where
  id : Int
  book_id : Int
  canonical_name : String
  aliases_json : String
  first_chapter_idx : Option Int
  last_chapter_idx : Option Int
  status : String
  location : Option String
  abilities_json : Option String
  relationships_json : Option String
  motivation : Option String
  notes : Option String
deriving Repr, DecidableEq

/-- Item state row (storage/types.py, `ItemRow`). -/
structure ItemRow where
  id : Int
  book_id : Int
  name : String
  owner_name : Option String
  first_chapter_idx : Option Int
  last_chapter_idx : Option Int
  description : Option String
  status : String
deriving Repr, DecidableEq

/-- Plot event row (storage/types.py, `PlotEventRow`). -/
structure PlotEventRow where
  id : Int
  book_id : Int
  chapter_idx : Int
  event_summary : String
  involved_characters_json : Option String
  event_type : Option String
  impact : Option String
deriving Repr, DecidableEq

/-- World fact row (storage/types.py, `WorldFactRow`); the float
`confidence` is modelled in `ℚ`. -/
structure WorldFactRow where
  id : Int
  book_id : Int
  fact_key : String
  fact_value : String
  confidence : ℚ
  source_chapter_idx : Option Int
  source_excerpt : Option String
deriving Repr, DecidableEq

/-- The four hard world-state tables, each as the list of its rows (all
books together, in table scan order). -/
structure WorldState where
  characters : List CharacterRow
  items : List ItemRow
  plot_events : List PlotEventRow
  world_facts : List WorldFactRow
deriving Repr

/-- Order of `ORDER BY canonical_name` and of the snapshot's
`sort(key=str(canonical_name or ""))` (both are the same total order on
the name strings; the model uses Lean's string order for both). -/
def charLe (a b : CharacterRow) : Bool :=
  decide (a.canonical_name ≤ b.canonical_name)

/-- Order of `ORDER BY name` / `sort(key=str(name or ""))` on items. -/
def itemLe (a b : ItemRow) : Bool :=
  decide (a.name ≤ b.name)

/-- Order of `ORDER BY chapter_idx, id` /
`sort(key=(chapter_idx, id))` on plot events. -/
def plotLe (a b : PlotEventRow) : Bool :=
  decide (a.chapter_idx < b.chapter_idx ∨ (a.chapter_idx = b.chapter_idx ∧ a.id ≤ b.id))

/-- Order of `ORDER BY fact_key` / `sort(key=str(fact_key or ""))` on
world facts. -/
def factLe (a b : WorldFactRow) : Bool :=
  decide (a.fact_key ≤ b.fact_key)

/-- Embedding of `list_character_states` (world_state/characters.py lines
60-84): the book's rows ordered by `canonical_name`. -/
def list_character_states (ws : WorldState) (book_id : Int) : List CharacterRow :=
  (ws.characters.filter fun r => r.book_id = book_id).mergeSort charLe

/-- Embedding of `list_item_states` (world_state/items.py lines 52-67):
the book's rows ordered by `name`. -/
def list_item_states (ws : WorldState) (book_id : Int) : List ItemRow :=
  (ws.items.filter fun r => r.book_id = book_id).mergeSort itemLe

/-- Embedding of `list_plot_events_by_book` (world_state/plot_events.py
lines 70-82): the book's rows ordered by `(chapter_idx, id)`. -/
def list_plot_events_by_book (ws : WorldState) (book_id : Int) : List PlotEventRow :=
  (ws.plot_events.filter fun r => r.book_id = book_id).mergeSort plotLe

/-- Embedding of `list_world_facts` (world_state/world_facts.py lines
51-64): the book's rows ordered by `fact_key`, limited. -/
def list_world_facts (ws : WorldState) (book_id : Int) (limit : Nat) : List WorldFactRow :=
  ((ws.world_facts.filter fun r => r.book_id = book_id).mergeSort factLe).take limit

/-- Decoded snapshot payload: the object `_snapshot_world_state` builds and
serializes, and that `orjson.loads(checkpoint.snapshot_json)` recovers
(`loads ∘ dumps` is the identity on the payload object). -/
structure Snapshot where
  characters : List CharacterRow
  items : List ItemRow
  plot_events : List PlotEventRow
  world_facts : List WorldFactRow
deriving Repr, DecidableEq

/-- Embedding of `_snapshot_world_state` (storyteller/service.py lines
94-113) up to serialization: list the four tables for the book with
`limit=10_000` on world facts, then re-sort each list with the stated keys
("Sort for stable hashes"). -/
def snapshot_world_state_obj (ws : WorldState) (book_id : Int) : Snapshot :=
  { characters := (list_character_states ws book_id).mergeSort charLe
    items := (list_item_states ws book_id).mergeSort itemLe
    plot_events := (list_plot_events_by_book ws book_id).mergeSort plotLe
    world_facts := (list_world_facts ws book_id 10000).mergeSort factLe }

/-- Minimal JSON string escaping (quote, backslash, newline). -/
def jsonEscape (s : String) : String :=
  s.toList.foldl
    (fun acc c =>
      acc ++ (if c = '"' then "\\\"" else if c = '\\' then "\\\\"
        else if c = '\n' then "\\n" else String.singleton c))
    ""

/-- JSON string literal. -/
def jsonStr (s : String) : String := "\"" ++ jsonEscape s ++ "\""

/-- JSON rendering of a nullable string. -/
def jsonOptStr : Option String → String
  | none => "null"
  | some s => jsonStr s

/-- JSON rendering of a nullable integer. -/
def jsonOptInt : Option Int → String
  | none => "null"
  | some i => toString i

/-- JSON array from rendered elements. -/
def jsonArr (elems : List String) : String :=
  "[" ++ String.intercalate "," elems ++ "]"

/-- Rendering of one character row with keys in sorted order, modelling
`orjson.dumps(..., option=orjson.OPT_SORT_KEYS)`. -/
def renderCharacter (r : CharacterRow) : String :=
  "\x7b" ++ "\"abilities_json\":" ++ jsonOptStr r.abilities_json ++
  ",\"aliases_json\":" ++ jsonStr r.aliases_json ++
  ",\"book_id\":" ++ toString r.book_id ++
  ",\"canonical_name\":" ++ jsonStr r.canonical_name ++
  ",\"first_chapter_idx\":" ++ jsonOptInt r.first_chapter_idx ++
  ",\"id\":" ++ toString r.id ++
  ",\"last_chapter_idx\":" ++ jsonOptInt r.last_chapter_idx ++
  ",\"location\":" ++ jsonOptStr r.location ++
  ",\"motivation\":" ++ jsonOptStr r.motivation ++
  ",\"notes\":" ++ jsonOptStr r.notes ++
  ",\"status\":" ++ jsonStr r.status ++ "\x7d"

/-- Rendering of one item row with keys in sorted order. -/
def renderItem (r : ItemRow) : String :=
  "\x7b" ++ "\"book_id\":" ++ toString r.book_id ++
  ",\"description\":" ++ jsonOptStr r.description ++
  ",\"first_chapter_idx\":" ++ jsonOptInt r.first_chapter_idx ++
  ",\"id\":" ++ toString r.id ++
  ",\"last_chapter_idx\":" ++ jsonOptInt r.last_chapter_idx ++
  ",\"name\":" ++ jsonStr r.name ++
  ",\"owner_name\":" ++ jsonOptStr r.owner_name ++
  ",\"status\":" ++ jsonStr r.status ++ "\x7d"

/-- Rendering of one plot event row with keys in sorted order. -/
def renderPlotEvent (r : PlotEventRow) : String :=
  "\x7b" ++ "\"book_id\":" ++ toString r.book_id ++
  ",\"chapter_idx\":" ++ toString r.chapter_idx ++
  ",\"event_summary\":" ++ jsonStr r.event_summary ++
  ",\"event_type\":" ++ jsonOptStr r.event_type ++
  ",\"id\":" ++ toString r.id ++
  ",\"impact\":" ++ jsonOptStr r.impact ++
  ",\"involved_characters_json\":" ++ jsonOptStr r.involved_characters_json ++ "\x7d"

/-- Rendering of one world fact row with keys in sorted order; the float
`confidence` is rendered through its exact rational value. -/
def renderWorldFact (r : WorldFactRow) : String :=
  "\x7b" ++ "\"book_id\":" ++ toString r.book_id ++
  ",\"confidence\":" ++ toString r.confidence ++
  ",\"fact_key\":" ++ jsonStr r.fact_key ++
  ",\"fact_value\":" ++ jsonStr r.fact_value ++
  ",\"id\":" ++ toString r.id ++
  ",\"source_chapter_idx\":" ++ jsonOptInt r.source_chapter_idx ++
  ",\"source_excerpt\":" ++ jsonOptStr r.source_excerpt ++ "\x7d"

/-- Rendering of the snapshot object with `OPT_SORT_KEYS` (the four top
level keys are already in sorted order). -/
def renderSnapshot (s : Snapshot) : String :=
  "\x7b" ++ "\"characters\":" ++ jsonArr (s.characters.map renderCharacter) ++
  ",\"items\":" ++ jsonArr (s.items.map renderItem) ++
  ",\"plot_events\":" ++ jsonArr (s.plot_events.map renderPlotEvent) ++
  ",\"world_facts\":" ++ jsonArr (s.world_facts.map renderWorldFact) ++ "\x7d"

/-- UTF-8 encoding of one Unicode scalar value as its byte sequence
(each byte a natural below 256). -/
def utf8EncodeChar (c : Char) : List Nat :=
  let v := c.toNat
  if v < 0x80 then [v]
  else if v < 0x800 then [0xC0 + v / 64, 0x80 + v % 64]
  else if v < 0x10000 then [0xE0 + v / 4096, 0x80 + v / 64 % 64, 0x80 + v % 64]
  else [0xF0 + v / 262144, 0x80 + v / 4096 % 64, 0x80 + v / 64 % 64, 0x80 + v % 64]

/-- UTF-8 byte sequence of a string (Python `text.encode("utf-8")`). -/
def utf8Bytes (text : String) : List Nat :=
  (text.toList.map utf8EncodeChar).flatten

/-- Right rotation of a 32-bit word (a natural below `2^32`): the two
shifted parts occupy disjoint bit ranges, so their sum is their union. -/
def rotr32 (n x : Nat) : Nat :=
  (x / 2 ^ n + x * 2 ^ (32 - n)) % 4294967296

/-- Bitwise complement of a 32-bit word. -/
def not32 (x : Nat) : Nat := 4294967295 - x

/-- SHA-256 small sigma 0 (FIPS 180-4, 4.6). -/
def sha256s0 (x : Nat) : Nat := rotr32 7 x ^^^ rotr32 18 x ^^^ x / 2 ^ 3

/-- SHA-256 small sigma 1 (FIPS 180-4, 4.7). -/
def sha256s1 (x : Nat) : Nat := rotr32 17 x ^^^ rotr32 19 x ^^^ x / 2 ^ 10

/-- SHA-256 round constants K (FIPS 180-4, 4.2.2), in decimal. -/
def sha256K : List Nat :=
  [1116352408, 1899447441, 3049323471, 3921009573, 961987163, 1508970993, 2453635748,
   2870763221, 3624381080, 310598401, 607225278, 1426881987, 1925078388, 2162078206,
   2614888103, 3248222580, 3835390401, 4022224774, 264347078, 604807628, 770255983,
   1249150122, 1555081692, 1996064986, 2554220882, 2821834349, 2952996808, 3210313671,
   3336571891, 3584528711, 113926993, 338241895, 666307205, 773529912, 1294757372,
   1396182291, 1695183700, 1986661051, 2177026350, 2456956037, 2730485921, 2820302411,
   3259730800, 3345764771, 3516065817, 3600352804, 4094571909, 275423344, 430227734,
   506948616, 659060556, 883997877, 958139571, 1322822218, 1537002063, 1747873779,
   1955562222, 2024104815, 2227730452, 2361852424, 2428436474, 2756734187, 3204031479,
   3329325298]

/-- SHA-256 initial hash value (FIPS 180-4, 5.3.3), in decimal. -/
def sha256H0 : List Nat :=
  [1779033703, 3144134277, 1013904242, 2773480762, 1359893119, 2600822924, 528734635,
   1541459225]

/-- SHA-256 message padding (FIPS 180-4, 5.1.1): append `0x80`, zero bytes
up to 56 mod 64, then the bit length as 8 big-endian bytes. -/
def sha256Pad (msg : List Nat) : List Nat :=
  let len := msg.length
  let padZeros := (120 - (len + 1) % 64) % 64
  let bitLen := len * 8
  msg ++ [0x80] ++ List.replicate padZeros 0 ++
    (List.range 8).map fun i => bitLen / 2 ^ (8 * (7 - i)) % 256

/-- Big-endian 32-bit words from a byte list. -/
def bytesToWords : List Nat → List Nat
  | b0 :: b1 :: b2 :: b3 :: rest =>
    (b0 * 16777216 + b1 * 65536 + b2 * 256 + b3) :: bytesToWords rest
  | _ => []

/-- Split a byte list into 64-byte blocks. -/
def sha256Blocks : List Nat → List (List Nat)
  | [] => []
  | b :: rest => ((b :: rest).take 64) :: sha256Blocks ((b :: rest).drop 64)
termination_by l => l.length
decreasing_by simp [List.length_drop]; omega

/-- Message-schedule extension (FIPS 180-4, 6.2.2 step 1): append `n` more
words to the schedule. -/
def sha256Extend (w : List Nat) : Nat → List Nat
  | 0 => w
  | n + 1 =>
    let i := w.length
    sha256Extend
      (w ++ [(w.getD (i - 16) 0 + sha256s0 (w.getD (i - 15) 0) + w.getD (i - 7) 0 +
        sha256s1 (w.getD (i - 2) 0)) % 4294967296])
      n

/-- One round of the SHA-256 compression loop (FIPS 180-4, 6.2.2 step 3)
on the working variables `[a, b, c, d, e, f, g, h]`. -/
def sha256Round (vars : List Nat) (kw : Nat × Nat) : List Nat :=
  let a := vars.getD 0 0
  let b := vars.getD 1 0
  let c := vars.getD 2 0
  let d := vars.getD 3 0
  let e := vars.getD 4 0
  let f := vars.getD 5 0
  let g := vars.getD 6 0
  let h := vars.getD 7 0
  let s1 := rotr32 6 e ^^^ rotr32 11 e ^^^ rotr32 25 e
  let ch := (e &&& f) ^^^ (not32 e &&& g)
  let temp1 := (h + s1 + ch + kw.1 + kw.2) % 4294967296
  let s0 := rotr32 2 a ^^^ rotr32 13 a ^^^ rotr32 22 a
  let maj := (a &&& b) ^^^ (a &&& c) ^^^ (b &&& c)
  let temp2 := (s0 + maj) % 4294967296
  [(temp1 + temp2) % 4294967296, a, b, c, (d + temp1) % 4294967296, e, f, g]

/-- SHA-256 compression of one 64-byte block into the hash state
(FIPS 180-4, 6.2.2). -/
def sha256Compress (state : List Nat) (block : List Nat) : List Nat :=
  let w := sha256Extend (bytesToWords block) 48
  let vars := (sha256K.zip w).foldl sha256Round state
  List.zipWith (fun x y => (x + y) % 4294967296) state vars

/-- SHA-256 digest of a byte list, as the final eight 32-bit words. -/
def sha256Words (msg : List Nat) : List Nat :=
  (sha256Blocks (sha256Pad msg)).foldl sha256Compress sha256H0

/-- Lowercase hexadecimal digit. -/
def hexDigit (n : Nat) : Char :=
  if n < 10 then Char.ofNat (48 + n) else Char.ofNat (87 + n)

/-- Eight lowercase hex digits of a 32-bit word, most significant first. -/
def wordToHex (w : Nat) : String :=
  String.mk ((List.range 8).map fun i => hexDigit (w / 2 ^ (4 * (7 - i)) % 16))

/-- Embedding of `sha256_text` (domain/hashing.py lines 6-7): the SHA-256
hex digest of the UTF-8 encoding of the text,
`hashlib.sha256(text.encode("utf-8")).hexdigest()`, computed per
FIPS 180-4 with 32-bit words modelled as naturals reduced modulo `2^32`. -/
def sha256_text (text : String) : String :=
  String.join ((sha256Words (utf8Bytes text)).map wordToHex)

/-- Embedding of `_snapshot_world_state` including serialization: the
returned pair `(snapshot_json, snapshot_hash)`. -/
def snapshot_world_state (ws : WorldState) (book_id : Int) : String × String :=
  let snapshot_json := renderSnapshot (snapshot_world_state_obj ws book_id)
  (snapshot_json, sha256_text snapshot_json)

/-- Embedding of `clear_world_state_for_book` (storage/repo.py lines
415-424): delete the book's rows from the four hard world-state tables. -/
def clear_world_state_for_book (ws : WorldState) (book_id : Int) : WorldState :=
  { characters := ws.characters.filter fun r => ¬ r.book_id = book_id
    items := ws.items.filter fun r => ¬ r.book_id = book_id
    plot_events := ws.plot_events.filter fun r => ¬ r.book_id = book_id
    world_facts := ws.world_facts.filter fun r => ¬ r.book_id = book_id }

/-- Embedding of `restore_world_state_checkpoint` (storage/repo.py lines
426-532): clear the four tables for the checkpoint's book, then bulk-insert
the snapshot payload's rows.  `_normalize_rows` keeps exactly the columns
of each row type (its `allowed` sets list precisely the row fields, so the
filtering is the identity on typed rows) and overrides `book_id` with the
checkpoint's; the `if characters:` style guards skip empty inserts, which
equals appending the empty list. -/
def restore_world_state_checkpoint (ws : WorldState) (book_id : Int) (payload : Snapshot) :
    WorldState :=
  let cleared := clear_world_state_for_book ws book_id
  { characters := cleared.characters ++
      payload.characters.map fun r => { r with book_id := book_id }
    items := cleared.items ++ payload.items.map fun r => { r with book_id := book_id }
    plot_events := cleared.plot_events ++
      payload.plot_events.map fun r => { r with book_id := book_id }
    world_facts := cleared.world_facts ++
      payload.world_facts.map fun r => { r with book_id := book_id } }

/-- Technical lemma: under `chunk_overlap_tokens < chunk_size_tokens` every
continuing iteration of the splitter loop strictly advances the cursor, so
`text.length - start` is a decreasing measure and enough fuel makes the
loop finish. -/
theorem splitLoop_isSome (text : List Char) (size overlap minTok : Nat) (h : overlap < size) :
    ∀ (n : Nat) (s : SplitState), text.length - s.start < n →
      (splitLoop text size overlap minTok n s).isSome := by
  intro n
  induction n with
  | zero => intro s hs; omega
  | succ n ih =>
    intro s hs
    simp only [splitLoop]
    by_cases hlt : s.start < text.length
    · rw [if_pos hlt]
      by_cases hm :
          estimateTokens (pySlice text s.start (min (s.start + size) text.length)) < minTok ∧
            s.chunks ≠ []
      · rw [dif_pos hm]
        simp
      · rw [dif_neg hm]
        by_cases he : min (s.start + size) text.length = text.length
        · rw [if_pos he]
          simp
        · rw [if_neg he]
          have hmin : min (s.start + size) text.length = s.start + size := by omega
          split
          · apply ih
            simp only []
            omega
          · apply ih
            simp only []
            omega
    · rw [if_neg hlt]
      simp

/-- Technical lemma: on input text `"abcdef"` with `chunk_size_tokens = 2`,
`chunk_overlap_tokens = 2`, `min_chunk_tokens = 1`, every loop state with
cursor `0` and a non-empty chunk list steps back to cursor `0`, so the loop
never finishes no matter the fuel. -/
theorem splitLoop_abcdef_stuck :
    ∀ (fuel : Nat) (s : SplitState), s.start = 0 → s.chunks ≠ [] →
      splitLoop "abcdef".toList 2 2 1 fuel s = none := by
  intro fuel
  induction fuel with
  | zero => intro s _ _; rfl
  | succ n ih =>
    intro s h0 hne
    obtain ⟨st, ch, ix⟩ := s
    simp only at h0
    subst h0
    simp only [splitLoop]
    rw [if_pos (by decide : (0 : Nat) < "abcdef".toList.length)]
    rw [dif_neg (by simp [estimateTokens, pySlice])]
    rw [if_neg (by decide : ¬ (min (0 + 2) "abcdef".toList.length = "abcdef".toList.length))]
    exact ih _ (by norm_num) (by simp)

/-- Claim C8: `split_text` rejects a windowed segment shorter than
`min_chunk_tokens` by merging it into the previous chunk and then
terminating (general single-step property of the loop), and in particular
`split_text("abcdefghi", chunk_size_tokens=4, chunk_overlap_tokens=1,
min_chunk_tokens=4)` returns exactly the two chunks `"abcd"` at position 0
and `"defgghi"` at position 3. -/
theorem C8_split_text_merge_short_segment
    (text : List Char) (size overlap minTok fuel : Nat) (s : SplitState)
    (hstart : s.start < text.length)
    (hshort : estimateTokens (pySlice text s.start (min (s.start + size) text.length)) < minTok)
    (hne : s.chunks ≠ []) :
    splitLoop text size overlap minTok (fuel + 1) s =
      some (s.chunks.dropLast ++
        [⟨(s.chunks.getLast hne).idx,
          (s.chunks.getLast hne).text ++ pySlice text s.start (min (s.start + size) text.length),
          (s.chunks.getLast hne).start_pos,
          min (s.start + size) text.length,
          estimateTokens ((s.chunks.getLast hne).text ++
            pySlice text s.start (min (s.start + size) text.length))⟩])
    ∧ split_text "abcdefghi".toList 4 1 4 10 =
        some [⟨1, "abcd".toList, 0, 4, 4⟩, ⟨2, "defgghi".toList, 3, 9, 7⟩] := by
  constructor
  · simp only [splitLoop]
    rw [if_pos hstart, dif_pos ⟨hshort, hne⟩]
  · decide

/-- Witness for C8: the merge step applied at a concrete loop state (the
state reached on `"abcdefghi"` just before the final short window), plus
the concrete end-to-end run. -/
theorem C8_witness :
    splitLoop "abcdefghi".toList 4 1 4 1 ⟨6, [⟨2, "defg".toList, 3, 7, 4⟩], 3⟩ =
      some [⟨2, "defgghi".toList, 3, 9, 7⟩]
    ∧ split_text "abcdefghi".toList 4 1 4 10 =
        some [⟨1, "abcd".toList, 0, 4, 4⟩, ⟨2, "defgghi".toList, 3, 9, 7⟩] := by
  have h := C8_split_text_merge_short_segment "abcdefghi".toList 4 1 4 0
    ⟨6, [⟨2, "defg".toList, 3, 7, 4⟩], 3⟩ (by decide) (by decide) (by decide)
  exact ⟨by simpa using h.1, h.2⟩

/-- Claim C9 counterexample: `split_text` does not terminate on every input.
With `chunk_size_tokens = 2`, `chunk_overlap_tokens = 2`,
`min_chunk_tokens = 1` and text `"abcdef"`, the cursor recomputes to
`max(0, end - overlap) = start` each iteration while the forced bump
`start = end + 1` only fires when `start == end`, which never happens here;
no amount of fuel makes the loop finish. -/
theorem C9_counterexample :
    ¬ ∃ fuel, (split_text "abcdef".toList 2 2 1 fuel).isSome := by
  rintro ⟨fuel, hf⟩
  rw [split_text] at hf
  rw [if_neg (by decide), if_neg (by decide)] at hf
  cases fuel with
  | zero => simp [splitLoop] at hf
  | succ n =>
    rw [splitLoop] at hf
    rw [if_pos (by decide : ((⟨0, [], 1⟩ : SplitState)).start < "abcdef".toList.length)] at hf
    rw [dif_neg (by simp [estimateTokens, pySlice])] at hf
    rw [if_neg (by decide : ¬ (min (0 + 2) "abcdef".toList.length = "abcdef".toList.length))] at hf
    rw [splitLoop_abcdef_stuck n ⟨_, _, _⟩ (by decide) (by simp)] at hf
    simp at hf

/-- Claim C9 (amended): `split_text` terminates whenever
`chunk_overlap_tokens < chunk_size_tokens` — then every continuing
iteration strictly advances the window start, and fuel `length + 1`
suffices.  (For `chunk_overlap_tokens ≥ chunk_size_tokens` the loop can
fail to advance; see the counterexample.) -/
theorem C9_split_text_terminates_when_overlap_lt_size
    (text : List Char) (size overlap minTok : Nat) (h : overlap < size) :
    (split_text text size overlap minTok (text.length + 1)).isSome := by
  rw [split_text]
  split
  · simp
  · split
    · simp
    · exact splitLoop_isSome text size overlap minTok h (text.length + 1) ⟨0, [], 1⟩ (by omega)

/-- Witness for the amended C9 at a concrete input. -/
theorem C9_witness :
    (split_text "abcdefghi".toList 4 1 4 ("abcdefghi".toList.length + 1)).isSome :=
  C9_split_text_terminates_when_overlap_lt_size "abcdefghi".toList 4 1 4 (by decide)

/-- Technical lemma: the number of scored auto-detection candidates equals
the number of candidate encodings that decode strictly. -/
theorem autoCandidateScores_length (strictDecode : String → Option String)
    (chapterHits : String → Nat) :
    (autoCandidateScores strictDecode chapterHits).length =
      AUTO_CANDIDATE_ENCODINGS.countP fun e => (strictDecode e).isSome := by
  have key : ∀ (l : List String),
      (l.filterMap fun candidate => (strictDecode candidate).map fun decoded =>
        (score_decoded_text decoded chapterHits, candidate, decoded)).length =
      l.countP fun e => (strictDecode e).isSome := by
    intro l
    induction l with
    | nil => simp
    | cons a t iht =>
      cases hd : strictDecode a <;>
        simp [List.filterMap_cons, hd, iht, List.countP_cons]
  exact key AUTO_CANDIDATE_ENCODINGS

/-- Claim C10: with `encoding="auto"`, if no candidate encoding decodes the
bytes strictly then `load_text_auto` does not raise but returns the utf-8
replacement decode with encoding `"utf-8"`, `autodetected=true`,
`confidence=0.0` and `used_replace_fallback=true`; and when exactly one
candidate decodes strictly the confidence is `1.0`. -/
theorem C10_load_text_auto_fallback_and_single_candidate
    (strictDecode : String → Option String) (utf8ReplaceText loadTextResult : String)
    (chapterHits : String → Nat) :
    ((∀ e ∈ AUTO_CANDIDATE_ENCODINGS, strictDecode e = none) →
      load_text_auto "auto" strictDecode utf8ReplaceText loadTextResult chapterHits =
        ⟨utf8ReplaceText, "utf-8", true, 0, true⟩)
    ∧ ((AUTO_CANDIDATE_ENCODINGS.countP fun e => (strictDecode e).isSome) = 1 →
        (load_text_auto "auto" strictDecode utf8ReplaceText loadTextResult
            chapterHits).confidence = 1
        ∧ (load_text_auto "auto" strictDecode utf8ReplaceText loadTextResult
            chapterHits).autodetected = true) := by
  constructor
  · intro h
    have h1 : strictDecode "utf-8-sig" = none := h _ (by simp [AUTO_CANDIDATE_ENCODINGS])
    have h2 : strictDecode "utf-8" = none := h _ (by simp [AUTO_CANDIDATE_ENCODINGS])
    have h3 : strictDecode "gb18030" = none := h _ (by simp [AUTO_CANDIDATE_ENCODINGS])
    have h4 : strictDecode "big5" = none := h _ (by simp [AUTO_CANDIDATE_ENCODINGS])
    have h5 : strictDecode "utf-16" = none := h _ (by simp [AUTO_CANDIDATE_ENCODINGS])
    have h6 : strictDecode "utf-16-le" = none := h _ (by simp [AUTO_CANDIDATE_ENCODINGS])
    have h7 : strictDecode "utf-16-be" = none := h _ (by simp [AUTO_CANDIDATE_ENCODINGS])
    have hc : autoCandidateScores strictDecode chapterHits = [] := by
      simp [autoCandidateScores, AUTO_CANDIDATE_ENCODINGS, h1, h2, h3, h4, h5, h6, h7]
    simp only [load_text_auto]
    rw [if_neg (by decide), if_pos hc]
  · intro hcount
    have hlen : (autoCandidateScores strictDecode chapterHits).length = 1 :=
      (autoCandidateScores_length strictDecode chapterHits).trans hcount
    obtain ⟨x, hx⟩ := List.length_eq_one.mp hlen
    simp only [load_text_auto]
    rw [if_neg (by decide), if_neg (by simp [hx]), hx]
    simp [hx]

/-- Witness for C10: a concrete decoder where nothing decodes (fallback
result), and one where exactly `"utf-8"` decodes (confidence 1). -/
theorem C10_witness :
    load_text_auto "auto" (fun _ => none) "REPLACED" "unused" (fun _ => 0) =
      ⟨"REPLACED", "utf-8", true, 0, true⟩
    ∧ (load_text_auto "auto" (fun e => if e = "utf-8" then some "hello" else none)
        "r" "u" (fun _ => 0)).confidence = 1 := by
  refine ⟨(C10_load_text_auto_fallback_and_single_candidate
      (fun _ => none) "REPLACED" "unused" (fun _ => 0)).1 (by intro e _; rfl),
    ((C10_load_text_auto_fallback_and_single_candidate
      (fun e => if e = "utf-8" then some "hello" else none) "r" "u" (fun _ => 0)).2 ?_).1⟩
  decide

/-- Technical lemma: the per-source overlap score is non-negative. -/
theorem overlap_score_nonneg (claim_tokens : Finset String) (s : Source) :
    0 ≤ overlap_score claim_tokens s := by
  unfold overlap_score
  split
  · exact le_refl 0
  · split
    · exact le_refl 0
    · positivity

/-- Technical lemma: if some source has a substring hit, the support loop
returns score 1 whatever its accumulator. -/
theorem best_support_loop_hit (claim_text : String) (claim_tokens : Finset String)
    (key_phrases : List String) :
    ∀ (sources : List Source) (best : ℚ × String × String),
      (∃ s ∈ sources, substring_hit claim_text key_phrases s = true) →
      (best_support_loop claim_text claim_tokens key_phrases sources best).1 = 1 := by
  intro sources
  induction sources with
  | nil =>
    rintro best ⟨s, hs, _⟩
    exact absurd hs (List.not_mem_nil s)
  | cons a rest ih =>
    rintro best ⟨s, hs, hhit⟩
    simp only [best_support_loop]
    by_cases he : a.text = ""
    · rw [if_pos he]
      rcases List.mem_cons.mp hs with rfl | hmem
      · simp [substring_hit, he] at hhit
      · exact ih best ⟨s, hmem, hhit⟩
    · rw [if_neg he]
      by_cases hp :
          (key_phrases.any fun p => pyStrip p ≠ "" && strContains a.text (pyStrip p)) = true
      · rw [if_pos hp]
      · rw [if_neg hp]
        by_cases hc : (claim_text ≠ "" && strContains a.text claim_text) = true
        · rw [if_pos hc]
        · rw [if_neg hc]
          rcases List.mem_cons.mp hs with rfl | hmem
          · simp only [substring_hit, Bool.and_eq_true, Bool.or_eq_true] at hhit
            rcases hhit.2 with h1 | h2
            · exact absurd h1 hp
            · exact hc ((Bool.and_eq_true _ _).mpr h2) |>.elim
          · split
            · split
              · exact ih _ ⟨s, hmem, hhit⟩
              · exact ih _ ⟨s, hmem, hhit⟩
            · split
              · exact ih _ ⟨s, hmem, hhit⟩
              · exact ih _ ⟨s, hmem, hhit⟩

/-- Technical lemma: with no substring hit anywhere, the support loop
computes the running maximum of the per-source overlap scores. -/
theorem best_support_loop_no_hit (claim_text : String) (claim_tokens : Finset String)
    (key_phrases : List String) :
    ∀ (sources : List Source) (best : ℚ × String × String), 0 ≤ best.1 →
      (∀ s ∈ sources, substring_hit claim_text key_phrases s = false) →
      (best_support_loop claim_text claim_tokens key_phrases sources best).1 =
        sources.foldl (fun acc s => max acc (overlap_score claim_tokens s)) best.1 := by
  intro sources
  induction sources with
  | nil => intro best _ _; rfl
  | cons a rest ih =>
    intro best hb h
    have ha := h a (List.mem_cons_self a rest)
    have hrest : ∀ s ∈ rest, substring_hit claim_text key_phrases s = false :=
      fun s hs => h s (List.mem_cons_of_mem a hs)
    simp only [best_support_loop, List.foldl_cons]
    by_cases he : a.text = ""
    · rw [if_pos he]
      have hov : overlap_score claim_tokens a = 0 := by simp [overlap_score, he]
      rw [ih best hb hrest, hov, max_eq_left hb]
    · rw [if_neg he]
      split
      · rename_i hp
        exact absurd (show substring_hit claim_text key_phrases a = true by
          simp only [substring_hit, Bool.and_eq_true, Bool.or_eq_true]
          exact ⟨by simpa using he, Or.inl hp⟩) (by simp [ha])
      · split
        · rename_i hc
          exact absurd (show substring_hit claim_text key_phrases a = true by
            simp only [substring_hit, Bool.and_eq_true, Bool.or_eq_true]
            exact ⟨by simpa using he, Or.inr ((Bool.and_eq_true _ _).mp hc)⟩) (by simp [ha])
        · by_cases htek : claim_tokens = ∅
          · rw [if_pos htek]
            have hov : overlap_score claim_tokens a = 0 := by
              simp [overlap_score, he, htek]
            rw [if_neg (not_lt.mpr hb), ih best hb hrest, hov, max_eq_left hb]
          · rw [if_neg htek]
            have hov : overlap_score claim_tokens a =
                ((claim_tokens ∩ evTokens a.text).card : ℚ) / max claim_tokens.card 1 := by
              simp [overlap_score, he, htek]
            rw [hov]
            split
            · rename_i hlt
              rw [ih _ (by positivity) hrest, max_eq_right (le_of_lt hlt)]
            · rename_i hlt
              rw [ih best hb hrest, max_eq_left (le_of_not_lt hlt)]

unseal Rat.add Rat.mul Rat.sub Rat.inv in
/-- Claim C5 counterexample: the implemented score is not the Jaccard
similarity.  For claim text `"ab cd"`, no key phrases, and the single
source `"cd ef ab"` there is no substring hit, the code scores
`|{ab,cd} ∩ {cd,ef,ab}| / |{ab,cd}| = 1.0`, while the Jaccard similarity of
the token sets is `2/3 ≠ 1`.  Moreover for an empty claim text the code
returns `0.0` even when a key phrase is an exact substring of a source
(spec value 1.0). -/
theorem C5_counterexample :
    (best_support_score "ab cd" [⟨"chapter", "cd ef ab"⟩] []).1 = 1
    ∧ jaccard_support_score_spec "ab cd" [⟨"chapter", "cd ef ab"⟩] [] = 2 / 3
    ∧ ¬ ((2 : ℚ) / 3 = 1)
    ∧ (best_support_score "" [⟨"chapter", "ab"⟩] ["ab"]).1 = 0
    ∧ jaccard_support_score_spec "" [⟨"chapter", "ab"⟩] ["ab"] = 1 := by
  refine ⟨by decide, by decide, by norm_num, by decide, by decide⟩

/-- Claim C5 (amended): for a nonempty claim text, `_best_support_score`
returns 1.0 when some source contains a nonempty stripped key phrase or
the whole claim text as an exact substring, and otherwise returns the
maximum over sources of the token-overlap ratio
`|claim_tokens ∩ source_tokens| / max(|claim_tokens|, 1)` (the claim-side
containment ratio, not the Jaccard similarity), tokens being CJK runs of
length 2-8 or alphanumeric/underscore runs of length 2-20. -/
theorem C5_best_support_score_characterization
    (claim_text : String) (sources : List Source) (key_phrases : List String)
    (h : claim_text ≠ "") :
    ((∃ s ∈ sources, substring_hit claim_text key_phrases s = true) →
      (best_support_score claim_text sources key_phrases).1 = 1)
    ∧ ((∀ s ∈ sources, substring_hit claim_text key_phrases s = false) →
      (best_support_score claim_text sources key_phrases).1 =
        sources.foldl (fun acc s => max acc (overlap_score (evTokens claim_text) s)) 0) := by
  constructor
  · intro hex
    unfold best_support_score
    rw [if_neg h]
    exact best_support_loop_hit claim_text (evTokens claim_text) key_phrases sources _ hex
  · intro hall
    unfold best_support_score
    rw [if_neg h]
    exact best_support_loop_no_hit claim_text (evTokens claim_text) key_phrases sources
      (0, "", "") (le_refl 0) hall

unseal Rat.add Rat.mul Rat.sub Rat.inv in
/-- Witness for the amended C5: a substring hit scoring 1, and a no-hit
case scoring the maximal overlap ratio 1/2. -/
theorem C5_witness :
    (best_support_score "ab" [⟨"chapter", "xx ab yy"⟩] []).1 = 1
    ∧ (best_support_score "ab cd" [⟨"chapter", "ab zz"⟩] []).1 = 1 / 2 := by
  constructor
  · exact (C5_best_support_score_characterization "ab" [⟨"chapter", "xx ab yy"⟩] []
      (by decide)).1 ⟨⟨"chapter", "xx ab yy"⟩, by decide, by decide⟩
  · have h := (C5_best_support_score_characterization "ab cd" [⟨"chapter", "ab zz"⟩] []
      (by decide)).2 (by decide)
    rw [h]
    decide

/-- Technical lemma: one acceptance loop of the evidence node counts every
input claim once, counts accepted claims by the emitted list, and every
accepted claim scored at least `min_score` before rounding and carries the
rounded score as annotation. -/
theorem processClaims_spec {α : Type} (min_score : ℚ) (sources : List Source)
    (claimText : α → String) (keyPhrases : α → List String) (warnMsg : α → String) :
    ∀ l : List α,
      (processClaims min_score sources claimText keyPhrases warnMsg l).total = l.length
      ∧ (processClaims min_score sources claimText keyPhrases warnMsg l).supported_count =
          (processClaims min_score sources claimText keyPhrases warnMsg l).supported.length
      ∧ (processClaims min_score sources claimText keyPhrases warnMsg l).supported_count ≤ l.length
      ∧ ∀ e ∈ (processClaims min_score sources claimText keyPhrases warnMsg l).supported,
          min_score ≤ (best_support_score (claimText e.item) sources (keyPhrases e.item)).1
          ∧ e.evidence_score =
              pyRound4 (best_support_score (claimText e.item) sources (keyPhrases e.item)).1 := by
  intro l
  induction l with
  | nil =>
    refine ⟨rfl, rfl, le_refl 0, ?_⟩
    intro e he
    cases he
  | cons x rest ih =>
    obtain ⟨iht, ihs, ihle, ihP⟩ := ih
    have heq : processClaims min_score sources claimText keyPhrases warnMsg (x :: rest) =
        (if (best_support_score (claimText x) sources (keyPhrases x)).1 < min_score then
          ⟨(processClaims min_score sources claimText keyPhrases warnMsg rest).supported,
            warnMsg x ::
              (processClaims min_score sources claimText keyPhrases warnMsg rest).warnings,
            (processClaims min_score sources claimText keyPhrases warnMsg rest).total + 1,
            (processClaims min_score sources claimText keyPhrases warnMsg rest).supported_count⟩
        else
          ⟨⟨x, (best_support_score (claimText x) sources (keyPhrases x)).2.1,
              (best_support_score (claimText x) sources (keyPhrases x)).2.2,
              pyRound4 (best_support_score (claimText x) sources (keyPhrases x)).1⟩ ::
              (processClaims min_score sources claimText keyPhrases warnMsg rest).supported,
            (processClaims min_score sources claimText keyPhrases warnMsg rest).warnings,
            (processClaims min_score sources claimText keyPhrases warnMsg rest).total + 1,
            (processClaims min_score sources claimText keyPhrases warnMsg
              rest).supported_count + 1⟩) := rfl
    by_cases h : (best_support_score (claimText x) sources (keyPhrases x)).1 < min_score
    · rw [heq, if_pos h]
      exact ⟨by simp [iht], by simp [ihs], by simp; omega, by simpa using ihP⟩
    · rw [heq, if_neg h]
      refine ⟨by simp [iht], by simp [ihs], by simp; omega, ?_⟩
      intro e he
      rcases List.mem_cons.mp he with rfl | hmem
      · exact ⟨le_of_not_lt h, rfl⟩
      · exact ihP e hmem

unseal Rat.add Rat.mul Rat.sub Rat.inv in
/-- Claim C6 counterexample: an accepted claim can carry an
`evidence_score` annotation strictly below `evidence_min_support_score`,
because the annotation is the raw score rounded to 4 decimal places.  With
`evidence_min_support_score = 0.11111`, a key event whose claim text has 9
distinct tokens of which exactly one occurs in the chapter text scores
`1/9 ≈ 0.11111...` and is accepted, but is annotated with
`round(1/9, 4) = 0.1111 < 0.11111`. -/
theorem C6_counterexample :
    ((evidence_verify_run (11111 / 100000) 3
      ⟨"w1 zz", [], [], [], [⟨"", "w1 w2 w3 w4 w5 w6 w7 w8 w9", "", "", ""⟩], [], []⟩).key_events.map
        fun e => e.evidence_score) = [1111 / 10000]
    ∧ ((1111 : ℚ) / 10000 < 11111 / 100000) := by
  constructor <;> decide

/-- Claim C6 (amended): every retained key event, character update and new
item of `evidence_verify.run` scored at least `evidence_min_support_score`
before rounding and carries `evidence_score` equal to that raw score
rounded to four decimal places (hence at least the threshold whenever the
threshold is a multiple of 1/10000), and the emitted report satisfies
`total = supported + unsupported` where `supported` counts the retained
claims and `unsupported` the rejected ones. -/
theorem C6_evidence_verify_scores_and_report
    (min_score : ℚ) (max_snippets : Nat) (state : EvidenceState) :
    (∀ e ∈ (evidence_verify_run min_score max_snippets state).key_events,
        min_score ≤ (best_support_score (claim_text_from_event e.item)
            (build_sources state.chapter_text state.awakened_memories max_snippets)
            [pyStrip e.item.what]).1
        ∧ e.evidence_score = pyRound4 (best_support_score (claim_text_from_event e.item)
            (build_sources state.chapter_text state.awakened_memories max_snippets)
            [pyStrip e.item.what]).1)
    ∧ (∀ u ∈ (evidence_verify_run min_score max_snippets state).character_updates,
        min_score ≤ (best_support_score (claim_text_from_update u.item)
            (build_sources state.chapter_text state.awakened_memories max_snippets)
            [pyStrip u.item.evidence, pyStrip u.item.after]).1
        ∧ u.evidence_score = pyRound4 (best_support_score (claim_text_from_update u.item)
            (build_sources state.chapter_text state.awakened_memories max_snippets)
            [pyStrip u.item.evidence, pyStrip u.item.after]).1)
    ∧ (∀ i ∈ (evidence_verify_run min_score max_snippets state).new_items,
        min_score ≤ (best_support_score (claim_text_from_item i.item)
            (build_sources state.chapter_text state.awakened_memories max_snippets)
            [pyStrip i.item.name, pyStrip i.item.description, pyStrip i.item.owner]).1
        ∧ i.evidence_score = pyRound4 (best_support_score (claim_text_from_item i.item)
            (build_sources state.chapter_text state.awakened_memories max_snippets)
            [pyStrip i.item.name, pyStrip i.item.description, pyStrip i.item.owner]).1)
    ∧ (evidence_verify_run min_score max_snippets state).evidence_report.total_claims =
        state.key_events.length + state.character_updates.length + state.new_items.length
    ∧ (evidence_verify_run min_score max_snippets state).evidence_report.supported_claims =
        (evidence_verify_run min_score max_snippets state).key_events.length +
          (evidence_verify_run min_score max_snippets state).character_updates.length +
          (evidence_verify_run min_score max_snippets state).new_items.length
    ∧ (evidence_verify_run min_score max_snippets state).evidence_report.total_claims =
        (evidence_verify_run min_score max_snippets state).evidence_report.supported_claims +
          (evidence_verify_run min_score max_snippets state).evidence_report.unsupported_claims := by
  obtain ⟨het, hes, hele, heP⟩ := processClaims_spec min_score
    (build_sources state.chapter_text state.awakened_memories max_snippets)
    claim_text_from_event (fun e => [pyStrip e.what])
    (fun e => "Evidence rejected key_event: " ++ e.what) state.key_events
  obtain ⟨hut, hus, hule, huP⟩ := processClaims_spec min_score
    (build_sources state.chapter_text state.awakened_memories max_snippets)
    claim_text_from_update (fun u => [pyStrip u.evidence, pyStrip u.after])
    (fun u => "Evidence rejected character_update: " ++ u.name) state.character_updates
  obtain ⟨hit, his, hile, hiP⟩ := processClaims_spec min_score
    (build_sources state.chapter_text state.awakened_memories max_snippets)
    claim_text_from_item (fun i => [pyStrip i.name, pyStrip i.description, pyStrip i.owner])
    (fun i => "Evidence rejected new_item: " ++ i.name) state.new_items
  refine ⟨heP, huP, hiP, ?_, ?_, ?_⟩
  · simp only [evidence_verify_run]
    omega
  · simp only [evidence_verify_run]
    omega
  · simp only [evidence_verify_run]
    omega

/-- Witness for the amended C6 at a concrete state. -/
theorem C6_witness :
    (evidence_verify_run 0 3
        ⟨"w1 zz", [], [], [], [⟨"", "w1", "", "", ""⟩], [], []⟩).evidence_report.total_claims =
      (evidence_verify_run 0 3
        ⟨"w1 zz", [], [], [], [⟨"", "w1", "", "", ""⟩], [], []⟩).evidence_report.supported_claims +
      (evidence_verify_run 0 3
        ⟨"w1 zz", [], [], [], [⟨"", "w1", "", "", ""⟩], [], []⟩).evidence_report.unsupported_claims :=
  (C6_evidence_verify_scores_and_report 0 3
    ⟨"w1 zz", [], [], [], [⟨"", "w1", "", "", ""⟩], [], []⟩).2.2.2.2.2

/-- Technical lemma: the key-event sanitation loop emits only events with
nonempty `what` not matching a recent-event summary and not in the carried
`seen` set, with pairwise distinct `what` fields. -/
theorem sanitizeKeyEvents_spec (recent_event_set : List String) :
    ∀ (events : List KeyEvent) (seen : List String),
      (∀ e ∈ (sanitizeKeyEvents recent_event_set events seen).1,
        e.what ≠ "" ∧ e.what ∉ recent_event_set ∧ e.what ∉ seen)
      ∧ ((sanitizeKeyEvents recent_event_set events seen).1.map
          fun e => e.what).Pairwise (· ≠ ·) := by
  intro events
  induction events with
  | nil =>
    intro seen
    refine ⟨?_, List.Pairwise.nil⟩
    intro e he
    cases he
  | cons e rest ih =>
    intro seen
    simp only [sanitizeKeyEvents]
    by_cases hw : pyStrip e.what = ""
    · rw [if_pos hw]
      exact ih seen
    · rw [if_neg hw]
      by_cases hd : pyStrip e.what ∈ seen ∨ pyStrip e.what ∈ recent_event_set
      · rw [if_pos hd]
        exact ih seen
      · rw [if_neg hd]
        push_neg at hd
        obtain ⟨ihmem, ihpw⟩ := ih (pyStrip e.what :: seen)
        constructor
        · intro x hx
          rcases List.mem_cons.mp hx with rfl | hmem
          · exact ⟨hw, hd.2, fun hc => (hd.1 hc).elim⟩
          · obtain ⟨h1, h2, h3⟩ := ihmem x hmem
            exact ⟨h1, h2, fun hc => h3 (List.mem_cons_of_mem _ hc)⟩
        · simp only [List.map_cons]
          refine List.Pairwise.cons ?_ ihpw
          intro y hy
          obtain ⟨x, hx, rfl⟩ := List.mem_map.mp hy
          obtain ⟨_, _, h3⟩ := ihmem x hx
          exact fun hc => h3 (hc ▸ List.mem_cons_self _ _)

/-- Technical lemma: the update sanitation loop replaces each name via the
alias index (keeping the raw name when unindexed), records a normalization
action whenever the name changed, and never emits a no-op update. -/
theorem sanitizeUpdates_spec (alias_index : List (String × String)) :
    ∀ (updates : List EvUpdate),
      ∀ u ∈ (sanitizeUpdates alias_index updates).1,
        u.name = (dictGet alias_index (normalize_name_key u.name_raw)).getD u.name_raw
        ∧ (u.name ≠ u.name_raw →
            ("Normalized character alias '" ++ u.name_raw ++ "' -> '" ++ u.name ++ "'") ∈
              (sanitizeUpdates alias_index updates).2.2)
        ∧ ¬(u.before ≠ "" ∧ u.after ≠ "" ∧ u.before = u.after) := by
  intro updates
  induction updates with
  | nil => intro u hu; cases hu
  | cons x rest ih =>
    intro u hu
    simp only [sanitizeUpdates] at hu ⊢
    by_cases hn : pyStrip x.name = ""
    · rw [if_pos hn] at hu ⊢
      exact ih u hu
    · rw [if_neg hn] at hu ⊢
      by_cases hnoop :
          pyStrip x.before ≠ "" ∧ pyStrip x.after ≠ "" ∧ pyStrip x.before = pyStrip x.after
      · rw [if_pos hnoop] at hu ⊢
        obtain ⟨h1, h2, h3⟩ := ih u hu
        exact ⟨h1, fun hne => List.mem_append_right _ (h2 hne), h3⟩
      · rw [if_neg hnoop] at hu ⊢
        rcases List.mem_cons.mp hu with rfl | hmem
        · refine ⟨rfl, ?_, hnoop⟩
          intro hne
          apply List.mem_append_left
          rw [if_pos hne]
          exact List.mem_singleton.mpr rfl
        · obtain ⟨h1, h2, h3⟩ := ih u hmem
          exact ⟨h1, fun hne => List.mem_append_right _ (h2 hne), h3⟩

/-- Claim C7: on every input state, `consistency_check.run` emits key
events with nonempty pairwise-distinct `what` fields none of which matches
a recent-event summary, at most 20 of them; every emitted character update
carries the canonical name obtained from the alias index for its raw name
(the raw name itself when unindexed), a `Normalized character alias` action
is recorded whenever the name changed, and no emitted update has equal
nonempty `before` and `after`. -/
theorem C7_consistency_check_sanitation (state : ConsistencyState) :
    (∀ e ∈ (consistency_check_run state).key_events, e.what ≠ "")
    ∧ ((consistency_check_run state).key_events.map fun e => e.what).Pairwise (· ≠ ·)
    ∧ (∀ e ∈ (consistency_check_run state).key_events,
        e.what ∉ ((state.recent_events.map fun i => pyStrip i.event_summary).filter (· ≠ "")))
    ∧ (consistency_check_run state).key_events.length ≤ 20
    ∧ (∀ u ∈ (consistency_check_run state).character_updates,
        u.name = (dictGet (build_character_alias_index state.character_states)
          (normalize_name_key u.name_raw)).getD u.name_raw)
    ∧ (∀ u ∈ (consistency_check_run state).character_updates, u.name ≠ u.name_raw →
        ("Normalized character alias '" ++ u.name_raw ++ "' -> '" ++ u.name ++ "'") ∈
          (consistency_check_run state).consistency_actions)
    ∧ (∀ u ∈ (consistency_check_run state).character_updates,
        ¬(u.before ≠ "" ∧ u.after ≠ "" ∧ u.before = u.after)) := by
  obtain ⟨hmem, hpw⟩ := sanitizeKeyEvents_spec
    ((state.recent_events.map fun i => pyStrip i.event_summary).filter (· ≠ ""))
    state.key_events []
  have hupd := sanitizeUpdates_spec (build_character_alias_index state.character_states)
    state.character_updates
  have hkey : (consistency_check_run state).key_events =
      (if (sanitizeKeyEvents
          ((state.recent_events.map fun i => pyStrip i.event_summary).filter (· ≠ ""))
          state.key_events []).1.length > 20 then
        (sanitizeKeyEvents
          ((state.recent_events.map fun i => pyStrip i.event_summary).filter (· ≠ ""))
          state.key_events []).1.take 20
      else
        (sanitizeKeyEvents
          ((state.recent_events.map fun i => pyStrip i.event_summary).filter (· ≠ ""))
          state.key_events []).1) := rfl
  have hkey_sub : ∀ e ∈ (consistency_check_run state).key_events,
      e ∈ (sanitizeKeyEvents
        ((state.recent_events.map fun i => pyStrip i.event_summary).filter (· ≠ ""))
        state.key_events []).1 := by
    intro e he
    rw [hkey] at he
    split at he
    · exact (List.take_sublist _ _).mem he
    · exact he
  refine ⟨?_, ?_, ?_, ?_, ?_, ?_, ?_⟩
  · exact fun e he => (hmem e (hkey_sub e he)).1
  · rw [hkey]
    split
    · exact (hpw.sublist ((List.take_sublist _ _).map _))
    · exact hpw
  · exact fun e he => (hmem e (hkey_sub e he)).2.1
  · rw [hkey]
    split
    · rename_i h
      exact le_trans (List.length_take_le _ _) (le_refl 20)
    · rename_i h
      omega
  · exact fun u hu => (hupd u hu).1
  · exact fun u hu hne => (hupd u hu).2.1 hne
  · exact fun u hu => (hupd u hu).2.2

/-- Witness for C7 at the spec's worked example: duplicated key events and
an alias-bearing update. -/
theorem C7_witness :
    (consistency_check_run
      ⟨[], [⟨"韩立", "斩杀妖兽", "", "", ""⟩, ⟨"韩立", "斩杀妖兽", "", "", ""⟩],
        [⟨"韩立", .str "[\"韩跑跑\"]"⟩],
        [⟨"韩跑跑", "status", "炼气", "筑基", "突破"⟩]⟩).key_events.length ≤ 20 :=
  (C7_consistency_check_sanitation
    ⟨[], [⟨"韩立", "斩杀妖兽", "", "", ""⟩, ⟨"韩立", "斩杀妖兽", "", "", ""⟩],
      [⟨"韩立", .str "[\"韩跑跑\"]"⟩],
      [⟨"韩跑跑", "status", "炼气", "筑基", "突破"⟩]⟩).2.2.2.1

/-- Technical lemma: one `merge` step of the hybrid retrieval keeps the
invariant that every aggregated entry is from a chapter strictly before the
current one (the entry inserted passes the causal filter, and score updates
do not change `chapter_idx`). -/
theorem mergeCandidate_causal (c : Int) (agg : List ((String × Int) × MemRecord))
    (item : MemRecord) (h : ∀ p ∈ agg, p.2.chapter_idx < c) :
    ∀ p ∈ mergeCandidate (some c) agg item, p.2.chapter_idx < c := by
  intro p hp
  simp only [mergeCandidate] at hp
  by_cases hge : item.chapter_idx ≥ c
  · rw [if_pos (by simpa using hge)] at hp
    exact h p hp
  · rw [if_neg (by simpa using hge)] at hp
    obtain ⟨q, hq, rfl⟩ := List.mem_map.mp hp
    have hq2 : q ∈ agg ∨ q = ((item.source_type, item.source_id),
        ⟨item.source_type, item.source_id, item.chapter_idx, item.chapter_title,
          String.mk (item.text.toList.take 800), 0, 0⟩) := by
      by_cases ha : (agg.any fun p => p.1 = (item.source_type, item.source_id)) = true
      · rw [if_pos ha] at hq
        exact Or.inl hq
      · rw [if_neg ha] at hq
        rcases List.mem_append.mp hq with h1 | h2
        · exact Or.inl h1
        · exact Or.inr (List.mem_singleton.mp h2)
    have hqidx : q.2.chapter_idx < c := by
      rcases hq2 with hmem | heq
      · exact h q hmem
      · rw [heq]
        exact lt_of_not_ge hge
    split
    · exact hqidx
    · exact hqidx

/-- Technical lemma: folding the merge step over any candidate list keeps
the causal invariant. -/
theorem foldl_mergeCandidate_causal (c : Int) :
    ∀ (items : List MemRecord) (agg : List ((String × Int) × MemRecord)),
      (∀ p ∈ agg, p.2.chapter_idx < c) →
      ∀ p ∈ items.foldl (mergeCandidate (some c)) agg, p.2.chapter_idx < c := by
  intro items
  induction items with
  | nil => exact fun agg h p hp => h p hp
  | cons x rest ih =>
    intro agg h p hp
    exact ih _ (mergeCandidate_causal c agg x h) p hp

/-- Claim C2: every entry returned by `retrieve_hybrid_memories` with a
non-None `current_chapter_idx = c` has `chapter_idx` strictly less than
`c`, whatever the chunk-vector results, narration-vector results, or FTS
keyword hits contributed. -/
theorem C2_retrieve_hybrid_memories_causal_filter
    (top_k : Int) (c : Int) (alpha beta : ℚ) (chunk_docs narration_docs : List RawDoc)
    (chunk_hits narration_hits : List SearchHitRow) (query_text : String)
    (keyword_terms : Option (List String)) (r : MemoryEntry)
    (hr : r ∈ retrieve_hybrid_memories top_k (some c) alpha beta chunk_docs narration_docs
      chunk_hits narration_hits query_text keyword_terms) :
    r.chapter_idx < c := by
  simp only [retrieve_hybrid_memories] at hr
  by_cases ht : top_k ≤ 0
  · rw [if_pos ht] at hr
    cases hr
  · rw [if_neg ht] at hr
    have hr2 : r ∈ (((recordsFromDocs (max (top_k * 3) top_k) "chunk" chunk_docs ++
        recordsFromDocs (max (top_k * 2) top_k) "narration" narration_docs) ++
        (if build_fts_query (extract_keyword_terms query_text keyword_terms 8) = "" then []
         else keywordHitsFromRows (chunk_hits ++ narration_hits))).foldl
          (mergeCandidate (some c)) []).map (fun p =>
        let proximity := proximity_score (some c) p.2.chapter_idx
        ({ source_type := p.2.source_type
           source_id := p.2.source_id
           chapter_idx := p.2.chapter_idx
           chapter_title := p.2.chapter_title
           text := p.2.text
           vector_rank_score := p.2.vector_rank_score
           keyword_rank_score := p.2.keyword_rank_score
           score := alpha * p.2.vector_rank_score + (1 - alpha) * p.2.keyword_rank_score +
             beta * proximity
           proximity_score := proximity } : MemoryEntry)) := by
      have h1 := (List.take_sublist _ _).subset hr
      exact (List.mergeSort_perm _ _).subset h1
    obtain ⟨p, hp, rfl⟩ := List.mem_map.mp hr2
    exact foldl_mergeCandidate_causal c _ [] (by intro q hq; cases hq) p hp

unseal Rat.add Rat.mul Rat.sub Rat.inv List.merge List.mergeSort in
/-- Witness for C2: a single chunk document from chapter 3 queried at
current chapter 5 comes back and indeed lies strictly before chapter 5. -/
theorem C2_witness :
    ((⟨"chunk", 1, 3, "t", "hello", 1, 0, 23 / 30, 1 / 3⟩ : MemoryEntry).chapter_idx < 5) :=
  C2_retrieve_hybrid_memories_causal_filter 5 5 (7 / 10) (1 / 5)
    [⟨some 1, some 3, "t", "hello"⟩] [] [] [] "" none
    ⟨"chunk", 1, 3, "t", "hello", 1, 0, 23 / 30, 1 / 3⟩ (by decide)

unseal List.merge List.mergeSort in
/-- Claim C3 at the failing input: two narrations of chapter 1 share
`created_at = 100` and differ in `id` (1 and 2).  The query of
`get_latest_narration` orders by `created_at` only, so under the modelled
tie order it returns the row with `id = 1`, not the row with the greatest
`id` that spec.md (and the sibling latest-per-chapter test data) demand. -/
theorem C3_get_latest_narration_no_id_tiebreak :
    get_latest_narration
      [⟨1, 1, 1, 1, "第一版", none, "v1", "m", "h1", 100⟩,
       ⟨2, 1, 1, 1, "第二版", none, "v1", "m", "h2", 100⟩] 1 =
      some (narrationToRow ⟨1, 1, 1, 1, "第一版", none, "v1", "m", "h1", 100⟩)
    ∧ spec_latest_narration
      [⟨1, 1, 1, 1, "第一版", none, "v1", "m", "h1", 100⟩,
       ⟨2, 1, 1, 1, "第二版", none, "v1", "m", "h2", 100⟩] 1 =
      some (narrationToRow ⟨2, 1, 1, 1, "第二版", none, "v1", "m", "h2", 100⟩)
    ∧ some (narrationToRow ⟨1, 1, 1, 1, "第一版", none, "v1", "m", "h1", 100⟩) ≠
        some (narrationToRow ⟨2, 1, 1, 1, "第二版", none, "v1", "m", "h2", 100⟩) := by
  refine ⟨by decide, by decide, by decide⟩

unseal List.merge List.mergeSort in
/-- Claim C4 at the failing input: a book whose chapter 1 carries two
narration versions.  `_export_storyteller_outputs` iterates over
`list_narrations_by_book`, which returns every version, so the export
renders chapter 1 twice — both versions appear in the merged parts and
hence in `full_story.md` — instead of only the latest one. -/
theorem C4_export_renders_every_version :
    export_merged_parts
      (list_narrations_by_book
        [⟨1, 1, 101, 1, "第一版", none, "v1", "m", "h1", 100⟩,
         ⟨2, 1, 101, 1, "第二版", none, "v1", "m", "h2", 100⟩] 1)
      [(101, "第1章")] =
      [render_chapter_narration 1 "第1章" "第一版",
       render_chapter_narration 1 "第1章" "第二版"]
    ∧ export_full_story
        (export_merged_parts
          (list_narrations_by_book
            [⟨1, 1, 101, 1, "第一版", none, "v1", "m", "h1", 100⟩,
             ⟨2, 1, 101, 1, "第二版", none, "v1", "m", "h2", 100⟩] 1)
          [(101, "第1章")]) =
        "# 第1章 第1章\n\n第一版\n\n\n# 第1章 第1章\n\n第二版\n" := by
  refine ⟨by decide, by decide⟩

/-- Technical lemma: mapping a function that fixes every member is the
identity. -/
theorem list_map_id_of_mem {α : Type} (f : α → α) :
    ∀ l : List α, (∀ x ∈ l, f x = x) → l.map f = l := by
  intro l
  induction l with
  | nil => intro _; rfl
  | cons a t ih =>
    intro h
    simp only [List.map_cons]
    rw [h a (List.mem_cons_self a t), ih fun x hx => h x (List.mem_cons_of_mem _ hx)]

/-- Technical lemma: transitivity of the character name order. -/
theorem charLe_trans (a b c : CharacterRow) : charLe a b → charLe b c → charLe a c := by
  simp only [charLe, decide_eq_true_eq]
  exact le_trans

/-- Technical lemma: totality of the character name order. -/
theorem charLe_total (a b : CharacterRow) : charLe a b || charLe b a := by
  simp only [charLe, Bool.or_eq_true, decide_eq_true_eq]
  exact le_total _ _

/-- Technical lemma: transitivity of the item name order. -/
theorem itemLe_trans (a b c : ItemRow) : itemLe a b → itemLe b c → itemLe a c := by
  simp only [itemLe, decide_eq_true_eq]
  exact le_trans

/-- Technical lemma: totality of the item name order. -/
theorem itemLe_total (a b : ItemRow) : itemLe a b || itemLe b a := by
  simp only [itemLe, Bool.or_eq_true, decide_eq_true_eq]
  exact le_total _ _

/-- Technical lemma: transitivity of the plot event `(chapter_idx, id)`
order. -/
theorem plotLe_trans (a b c : PlotEventRow) : plotLe a b → plotLe b c → plotLe a c := by
  simp only [plotLe, decide_eq_true_eq]
  omega

/-- Technical lemma: totality of the plot event `(chapter_idx, id)` order. -/
theorem plotLe_total (a b : PlotEventRow) : plotLe a b || plotLe b a := by
  simp only [plotLe, Bool.or_eq_true, decide_eq_true_eq]
  omega

/-- Technical lemma: transitivity of the fact key order. -/
theorem factLe_trans (a b c : WorldFactRow) : factLe a b → factLe b c → factLe a c := by
  simp only [factLe, decide_eq_true_eq]
  exact le_trans

/-- Technical lemma: totality of the fact key order. -/
theorem factLe_total (a b : WorldFactRow) : factLe a b || factLe b a := by
  simp only [factLe, Bool.or_eq_true, decide_eq_true_eq]
  exact le_total _ _

/-- Technical lemma: for any table, clearing a book's rows, re-inserting a
sorted payload of rows of that book with the `book_id` override, filtering
the book back out and re-sorting returns exactly the payload.  This is the
common shape of the four table round trips of checkpoint restore. -/
theorem table_roundtrip {α : Type} (le : α → α → Bool)
    (bk : α → Int) (setbk : Int → α → α)
    (hset_eq : ∀ (b : Int) (r : α), bk r = b → setbk b r = r)
    (hset_bk : ∀ (b : Int) (r : α), bk (setbk b r) = b)
    (b : Int) (tblOld : List α) (payload : List α)
    (hpay_sorted : payload.Pairwise fun a b => le a b = true)
    (hpay_bk : ∀ r ∈ payload, bk r = b) :
    (((tblOld.filter fun r => ¬ bk r = b) ++ payload.map (setbk b)).filter
      fun r => bk r = b).mergeSort le = payload := by
  have h1 : ((tblOld.filter fun r => ¬ bk r = b).filter fun r => bk r = b) = [] := by
    apply List.filter_eq_nil_iff.mpr
    intro a ha
    have := List.of_mem_filter ha
    simp only [decide_eq_true_eq] at this ⊢
    exact this
  have h2 : ((payload.map (setbk b)).filter fun r => bk r = b) = payload.map (setbk b) := by
    apply List.filter_eq_self.mpr
    intro a ha
    obtain ⟨r, _, rfl⟩ := List.mem_map.mp ha
    simp only [decide_eq_true_eq]
    exact hset_bk b r
  have h3 : payload.map (setbk b) = payload :=
    list_map_id_of_mem _ payload fun r hr => hset_eq b r (hpay_bk r hr)
  rw [List.filter_append, h1, List.nil_append, h2, h3]
  exact List.mergeSort_of_sorted hpay_sorted

/-- Claim C1: for every book, every world state `ws` at checkpoint-write
time (the checkpoint stores `snapshot_json` serializing
`_snapshot_world_state` and `snapshot_hash` its SHA-256) and every later
database state `target`, restoring the checkpoint via
`restore_world_state_checkpoint` into `target` and recomputing
`_snapshot_world_state` reproduces the identical
`(snapshot_json, snapshot_hash)` pair — in particular the SHA-256 of the
recomputed `snapshot_json` equals the stored `snapshot_hash`. -/
theorem C1_restore_checkpoint_resnapshot_roundtrip (ws target : WorldState) (book_id : Int) :
    snapshot_world_state
        (restore_world_state_checkpoint target book_id (snapshot_world_state_obj ws book_id))
        book_id =
      snapshot_world_state ws book_id
    ∧ sha256_text (snapshot_world_state
        (restore_world_state_checkpoint target book_id (snapshot_world_state_obj ws book_id))
        book_id).1 =
      (snapshot_world_state ws book_id).2 := by
  have hcs : (snapshot_world_state_obj ws book_id).characters.Pairwise (fun a b => charLe a b = true) :=
    List.sorted_mergeSort charLe_trans charLe_total (list_character_states ws book_id)
  have his : (snapshot_world_state_obj ws book_id).items.Pairwise (fun a b => itemLe a b = true) :=
    List.sorted_mergeSort itemLe_trans itemLe_total (list_item_states ws book_id)
  have hps : (snapshot_world_state_obj ws book_id).plot_events.Pairwise (fun a b => plotLe a b = true) :=
    List.sorted_mergeSort plotLe_trans plotLe_total (list_plot_events_by_book ws book_id)
  have hfs : (snapshot_world_state_obj ws book_id).world_facts.Pairwise (fun a b => factLe a b = true) :=
    List.sorted_mergeSort factLe_trans factLe_total (list_world_facts ws book_id 10000)
  have hcb : ∀ r ∈ (snapshot_world_state_obj ws book_id).characters, r.book_id = book_id := by
    intro r hr
    have h1 : r ∈ list_character_states ws book_id := (List.mergeSort_perm _ _).subset hr
    have h2 : r ∈ ws.characters.filter fun r => r.book_id = book_id :=
      (List.mergeSort_perm _ _).subset h1
    simpa using List.of_mem_filter h2
  have hib : ∀ r ∈ (snapshot_world_state_obj ws book_id).items, r.book_id = book_id := by
    intro r hr
    have h1 : r ∈ list_item_states ws book_id := (List.mergeSort_perm _ _).subset hr
    have h2 : r ∈ ws.items.filter fun r => r.book_id = book_id :=
      (List.mergeSort_perm _ _).subset h1
    simpa using List.of_mem_filter h2
  have hpb : ∀ r ∈ (snapshot_world_state_obj ws book_id).plot_events, r.book_id = book_id := by
    intro r hr
    have h1 : r ∈ list_plot_events_by_book ws book_id := (List.mergeSort_perm _ _).subset hr
    have h2 : r ∈ ws.plot_events.filter fun r => r.book_id = book_id :=
      (List.mergeSort_perm _ _).subset h1
    simpa using List.of_mem_filter h2
  have hfb : ∀ r ∈ (snapshot_world_state_obj ws book_id).world_facts, r.book_id = book_id := by
    intro r hr
    have h1 : r ∈ list_world_facts ws book_id 10000 := (List.mergeSort_perm _ _).subset hr
    have h2 : r ∈ (ws.world_facts.filter fun r => r.book_id = book_id).mergeSort factLe :=
      (List.take_sublist _ _).subset h1
    have h3 : r ∈ ws.world_facts.filter fun r => r.book_id = book_id :=
      (List.mergeSort_perm _ _).subset h2
    simpa using List.of_mem_filter h3
  have hchars :
      list_character_states
        (restore_world_state_checkpoint target book_id (snapshot_world_state_obj ws book_id))
        book_id = (snapshot_world_state_obj ws book_id).characters :=
    table_roundtrip charLe (fun r => r.book_id)
      (fun b r => { r with book_id := b })
      (fun b r h => by cases r; cases h; rfl) (fun b r => rfl) book_id target.characters
      (snapshot_world_state_obj ws book_id).characters hcs hcb
  have hitems :
      list_item_states
        (restore_world_state_checkpoint target book_id (snapshot_world_state_obj ws book_id))
        book_id = (snapshot_world_state_obj ws book_id).items :=
    table_roundtrip itemLe (fun r => r.book_id)
      (fun b r => { r with book_id := b })
      (fun b r h => by cases r; cases h; rfl) (fun b r => rfl) book_id target.items
      (snapshot_world_state_obj ws book_id).items his hib
  have hplots :
      list_plot_events_by_book
        (restore_world_state_checkpoint target book_id (snapshot_world_state_obj ws book_id))
        book_id = (snapshot_world_state_obj ws book_id).plot_events :=
    table_roundtrip plotLe (fun r => r.book_id)
      (fun b r => { r with book_id := b })
      (fun b r h => by cases r; cases h; rfl) (fun b r => rfl) book_id target.plot_events
      (snapshot_world_state_obj ws book_id).plot_events hps hpb
  have hfacts0 :
      ((((restore_world_state_checkpoint target book_id
          (snapshot_world_state_obj ws book_id)).world_facts.filter
        fun r => r.book_id = book_id)).mergeSort factLe) =
        (snapshot_world_state_obj ws book_id).world_facts :=
    table_roundtrip factLe (fun r => r.book_id)
      (fun b r => { r with book_id := b })
      (fun b r h => by cases r; cases h; rfl) (fun b r => rfl) book_id target.world_facts
      (snapshot_world_state_obj ws book_id).world_facts hfs hfb
  have hfacts_len : (snapshot_world_state_obj ws book_id).world_facts.length ≤ 10000 := by
    have h1 : (snapshot_world_state_obj ws book_id).world_facts.length =
        (list_world_facts ws book_id 10000).length :=
      (List.mergeSort_perm _ _).length_eq
    have h2 : (list_world_facts ws book_id 10000).length ≤ 10000 :=
      List.length_take_le _ _
    omega
  have hfacts :
      list_world_facts
        (restore_world_state_checkpoint target book_id (snapshot_world_state_obj ws book_id))
        book_id 10000 = (snapshot_world_state_obj ws book_id).world_facts := by
    show ((((restore_world_state_checkpoint target book_id
        (snapshot_world_state_obj ws book_id)).world_facts.filter
      fun r => r.book_id = book_id)).mergeSort factLe).take 10000 = _
    rw [hfacts0]
    exact List.take_of_length_le hfacts_len
  have hobj :
      snapshot_world_state_obj
        (restore_world_state_checkpoint target book_id (snapshot_world_state_obj ws book_id))
        book_id = snapshot_world_state_obj ws book_id := by
    show Snapshot.mk _ _ _ _ = _
    rw [hchars, hitems, hplots, hfacts]
    rw [List.mergeSort_of_sorted hcs, List.mergeSort_of_sorted his,
      List.mergeSort_of_sorted hps, List.mergeSort_of_sorted hfs]
  have hpair :
      snapshot_world_state
        (restore_world_state_checkpoint target book_id (snapshot_world_state_obj ws book_id))
        book_id = snapshot_world_state ws book_id := by
    show (renderSnapshot (snapshot_world_state_obj
        (restore_world_state_checkpoint target book_id (snapshot_world_state_obj ws book_id))
        book_id),
      sha256_text (renderSnapshot (snapshot_world_state_obj
        (restore_world_state_checkpoint target book_id (snapshot_world_state_obj ws book_id))
        book_id))) = _
    rw [hobj]
    rfl
  exact ⟨hpair, by rw [hpair]; rfl⟩

end NovelSummarizer
